import Mathlib

/-!
Verification development for the Android_Agent repository.

Shallow embedding of the core control-loop code:
  * `src/android_agent/android_action.py`  — action data model
  * `src/android_agent/state_tracker.py`   — `AndroidStateTracker`
  * `src/android_agent/openai_planner.py`  — response parsing
  * `src/android_agent/android_agent.py`   — `AndroidAgent` loop controller

Python numbers are modelled as `ℚ` (with explicit truncation where the code
calls `int(...)`), Python `None`-able values as `Option`, and dynamically
typed JSON values as an explicit `JVal` type.  Device and network I/O are
modelled as explicit environment inputs; each modelled function is a pure
Lean function from its inputs (including the environment) to its outputs
together with a trace of device-facing effects.
-/

namespace AndroidAgentModel

/-- `AndroidActionType` from `android_action.py` (a `str`-valued enum). -/
inductive AndroidActionType where
  | TAP
  | TYPE
  | PRESS
  | SWIPE
  | SWIPE_UP
  | SWIPE_DOWN
  | SCREENSHOT
  | LAUNCH_APP
  | WAIT
  | SUCCESS
  | FAILURE
deriving DecidableEq, Repr

/-- The `str` value of each enum member (`AndroidActionType(str, Enum)`). -/
def AndroidActionType.strValue : AndroidActionType → String
  | .TAP => "tap"
  | .TYPE => "type"
  | .PRESS => "press"
  | .SWIPE => "swipe"
  | .SWIPE_UP => "swipe_up"
  | .SWIPE_DOWN => "swipe_down"
  | .SCREENSHOT => "screenshot"
  | .LAUNCH_APP => "launch_app"
  | .WAIT => "wait"
  | .SUCCESS => "success"
  | .FAILURE => "failure"

/-- Exact rational numbers as unnormalized fractions.  Python numbers are
modelled with this type rather than Mathlib's `ℚ` so that every operation
is a structural function the kernel can evaluate (Mathlib's `ℚ` stores
reducedness proofs built with `Nat.gcd`, which does not kernel-reduce).
Every constructor used by the model keeps `den` positive; values are
compared by cross-multiplication (`eqb`/`leb`/`ltb`), which is Python's
numeric comparison. -/
structure Frac where
  num : ℤ
  den : ℕ
deriving DecidableEq, Repr

/-- A Python `int` as a `Frac`. -/
def Frac.ofInt (n : ℤ) : Frac := ⟨n, 1⟩

instance : OfNat Frac n := ⟨⟨(n : ℤ), 1⟩⟩

instance : OfScientific Frac :=
  ⟨fun m b e => if b then ⟨(m : ℤ), 10 ^ e⟩ else ⟨(m : ℤ) * 10 ^ e, 1⟩⟩

/-- Value equality (`==` on Python numbers): cross-multiplication. -/
def Frac.eqb (a b : Frac) : Bool := a.num * (b.den : ℤ) == b.num * (a.den : ℤ)

/-- Value order (`<=` on Python numbers). -/
def Frac.leb (a b : Frac) : Bool :=
  decide (a.num * (b.den : ℤ) ≤ b.num * (a.den : ℤ))

/-- Strict value order (`<` on Python numbers). -/
def Frac.ltb (a b : Frac) : Bool :=
  decide (a.num * (b.den : ℤ) < b.num * (a.den : ℤ))

/-- Addition. -/
def Frac.add (a b : Frac) : Frac :=
  ⟨a.num * (b.den : ℤ) + b.num * (a.den : ℤ), a.den * b.den⟩

/-- Multiplication. -/
def Frac.mul (a b : Frac) : Frac := ⟨a.num * b.num, a.den * b.den⟩

/-- Negation. -/
def Frac.neg (a : Frac) : Frac := ⟨-a.num, a.den⟩

/-- Division (the sign moves to the numerator so that `den` stays
positive; division by zero never occurs in the modelled code). -/
def Frac.div (a b : Frac) : Frac :=
  ⟨a.num * (b.den : ℤ) * (if b.num < 0 then -1 else 1), a.den * b.num.natAbs⟩

/-- `10 ^ e` for an integer exponent. -/
def Frac.pow10 (e : ℤ) : Frac :=
  if 0 ≤ e then ⟨(10 : ℤ) ^ e.natAbs, 1⟩ else ⟨1, 10 ^ e.natAbs⟩

/-- Python `int(q)` on a number: truncation toward zero (`Int.tdiv` is
T-division). -/
def pyInt (q : Frac) : ℤ := q.num.tdiv (q.den : ℤ)

/-- The rational value of a fraction (used only to state and prove
bridging facts). -/
def Frac.toRat (a : Frac) : ℚ := (a.num : ℚ) / (a.den : ℚ)

/-- A dynamically-typed Python/JSON value, as produced by `json.loads` and
passed around the parser (`openai_planner.py` stores such values directly
into `AndroidAction` fields).  `num q isFloat` records whether the Python
value was a `float` (`isFloat = true`) or an `int`. -/
inductive JVal where
  | str (s : String)
  | num (q : Frac) (isFloat : Bool)
  | bool (b : Bool)
  | null
  | arr (xs : List JVal)
  | obj (fields : List (String × JVal))

/-- Python truthiness of a `JVal` (`if not v:`). -/
def JVal.truthy : JVal → Bool
  | .str s => s ≠ ""
  | .num q _ => !q.eqb (Frac.ofInt 0)
  | .bool b => b
  | .null => false
  | .arr xs => !xs.isEmpty
  | .obj fs => !fs.isEmpty

mutual

/-- Python `==` on JSON values: numeric equality ignores the int/float
distinction (`4 == 4.0` is `True`), and `True == 1`, `False == 0`. -/
def JVal.pyEq : JVal → JVal → Bool
  | .str a, .str b => a == b
  | .num a _, .num b _ => a.eqb b
  | .num a _, .bool b => a.eqb (Frac.ofInt (if b then 1 else 0))
  | .bool a, .num b _ => (Frac.ofInt (if a then 1 else 0)).eqb b
  | .bool a, .bool b => a == b
  | .null, .null => true
  | .arr xs, .arr ys => JVal.pyEqList xs ys
  | .obj fs, .obj gs => JVal.pyEqFields fs gs
  | _, _ => false

/-- Elementwise Python `==` on lists. -/
def JVal.pyEqList : List JVal → List JVal → Bool
  | [], [] => true
  | x :: xs, y :: ys => JVal.pyEq x y && JVal.pyEqList xs ys
  | _, _ => false

/-- Python `==` on object field lists (modelled positionally; the parser
never compares objects, so only reflexivity matters here). -/
def JVal.pyEqFields : List (String × JVal) → List (String × JVal) → Bool
  | [], [] => true
  | (k, v) :: fs, (k', v') :: gs => k == k' && JVal.pyEq v v' && JVal.pyEqFields fs gs
  | _, _ => false

end

/-- A JSON integer value, e.g. the key codes `3` and `4`. -/
def jint (n : ℤ) : JVal := .num (Frac.ofInt n) false

/-- `Coordinate` from `android_action.py`.  The dataclass annotates the
fields as `int`, but Python does not enforce the annotation and callers
hand it arbitrary numbers, so the fields are modelled as `ℚ`. -/
structure Coordinate where
  x : Frac
  y : Frac
deriving DecidableEq, Repr

/-- Python `==` on `Coordinate` dataclass instances: componentwise value
equality of the numbers. -/
def Coordinate.pyEqb (a b : Coordinate) : Bool := a.x.eqb b.x && a.y.eqb b.y

/-- Python `==` between an `Optional[Coordinate]` and an
`Optional[Coordinate]` (`None == None` is `True`; `None` never equals a
`Coordinate`). -/
def optCoordPyEqb : Option Coordinate → Option Coordinate → Bool
  | none, none => true
  | some a, some b => a.pyEqb b
  | _, _ => false

/-- `SwipeCoordinates` from `android_action.py`; `end_` models the Python
field `end`, and `duration` is whatever value the parser pulled out of the
JSON payload (default `100`). -/
structure SwipeCoordinates where
  start : Coordinate
  end_ : Coordinate
  duration : JVal := jint 100

/-- `AndroidAction` from `android_action.py`: exactly the dataclass fields
with their defaults.  The dynamically-typed fields (`text`, `key`,
`package`, `activity`, `duration`) are modelled as `Option JVal` since the
parser stores raw JSON values into them. -/
structure AndroidAction where
  action : AndroidActionType
  coordinate : Option Coordinate := none
  text : Option JVal := none
  key : Option JVal := none
  swipe : Option SwipeCoordinates := none
  package : Option JVal := none
  activity : Option JVal := none
  duration : Option JVal := none
  failed : Bool := false

/-- `AndroidState` from `android_state.py`. -/
structure AndroidState where
  screenshot : String
  width : ℤ
  height : ℤ
  current_app : String
  timestamp : ℤ
deriving DecidableEq, Repr

/-- `AndroidStep` from `android_step.py` (the optional `timestamp` field is
never set by the agent and is omitted). -/
structure AndroidStep where
  action : AndroidAction
  state : AndroidState

/-- `AndroidGoalState` from `android_agent.py`. -/
inductive AndroidGoalState where
  | INITIAL
  | RUNNING
  | SUCCESS
  | FAILED
deriving DecidableEq, Repr

/-! ## State tracker (`state_tracker.py`) -/

/-- A screen region `(left, top, right, bottom)` in normalized coordinates. -/
def Region := Frac × Frac × Frac × Frac

/-- `left <= x <= right and top <= y <= bottom` (the containment test used
for every region check in `_is_input_box`). -/
def regionContains (r : Region) (x y : Frac) : Bool :=
  let (left, top, right, bottom) := r
  left.leb x && x.leb right && top.leb y && y.leb bottom

/-- `self.app_icon_regions` from `AndroidStateTracker.__init__`: bottom 20%
and the top status-bar area, in `(left, top, right, bottom)` order. -/
def app_icon_regions : List Region := [(0, 0.8, 1, 1), (0, 0, 1, 0.08)]

/-- `AndroidStateTracker._init_known_input_regions`: the per-app table of
known input regions. -/
def known_input_regions : List (String × List Region) :=
  [ ("com.android.chrome",
      [(0.05, 0.03, 0.95, 0.15), (0.05, 0.2, 0.95, 0.4), (0.05, 0.4, 0.95, 0.6)]),
    ("com.google.android.gm",
      [(0.05, 0.1, 0.95, 0.3), (0.05, 0.3, 0.95, 0.9)]),
    ("com.android.messaging",
      [(0.05, 0.8, 0.8, 0.95)]) ]

/-- The known-input-region membership test exactly as `_is_input_box`
performs it (state_tracker.py lines 177-183): the loop ranges over the
regions of EVERY app in the table; the foreground app id is not consulted
(indeed `_is_input_box` receives no app id at all). -/
def knownInputRegionHit (x y : Frac) : Bool :=
  known_input_regions.any fun p => p.2.any fun r => regionContains r x y

/-- Modelled from the spec (§4.1 step 2): "If a per-app known-input-region
table has an entry for `foregroundAppId` whose bounding box contains point,
return InputLikely."  Under the spec's words only the entry registered for
the given foreground app id is consulted.  This definition exists solely to
be compared against the code's `knownInputRegionHit`. -/
def perAppKnownInputRegionHit (foregroundAppId : String) (x y : Frac) : Bool :=
  (known_input_regions.filter fun p => p.1 = foregroundAppId).any fun p =>
    p.2.any fun r => regionContains r x y

/-- `AndroidStateTracker._is_input_box`, translated line by line.  The
input is a `Coordinate` object (the agent always passes one); coordinates
greater than 1 are first normalized by dividing by 1000. -/
def is_input_box (coordinate : Coordinate) : Bool :=
  let x := coordinate.x
  let y := coordinate.y
  let x := if Frac.ltb 1 x then x.div 1000 else x
  let y := if Frac.ltb 1 y then y.div 1000 else y
  if app_icon_regions.any fun r => regionContains r x y then false
  else if knownInputRegionHit x y then true
  else if Frac.leb 0.05 y && Frac.leb y 0.2 && Frac.leb 0.05 x && Frac.leb x 0.95 then true
  else if Frac.leb 0.15 y && Frac.leb y 0.85 && Frac.leb 0.05 x && Frac.leb x 0.95 then true
  else if Frac.leb 0.75 y && Frac.leb y 0.95 && Frac.leb 0.05 x && Frac.leb x 0.8 then true
  else false

/-- `_is_input_box` with the known-input-region step (state_tracker.py
lines 177-183) deleted and everything else unchanged; used to state that
the table never influences the final classification. -/
def is_input_box_noTable (coordinate : Coordinate) : Bool :=
  let x := coordinate.x
  let y := coordinate.y
  let x := if Frac.ltb 1 x then x.div 1000 else x
  let y := if Frac.ltb 1 y then y.div 1000 else y
  if app_icon_regions.any fun r => regionContains r x y then false
  else if Frac.leb 0.05 y && Frac.leb y 0.2 && Frac.leb 0.05 x && Frac.leb x 0.95 then true
  else if Frac.leb 0.15 y && Frac.leb y 0.85 && Frac.leb 0.05 x && Frac.leb x 0.95 then true
  else if Frac.leb 0.75 y && Frac.leb y 0.95 && Frac.leb 0.05 x && Frac.leb x 0.8 then true
  else false

/-- The mutable state of `AndroidStateTracker` (`__init__`).  The
`action_count` dict is modelled as a total function defaulting to 0, which
matches the code's lazy key initialization.  `known_input_regions` and
`app_icon_regions` are immutable and kept as the global definitions
above. -/
structure AndroidStateTracker where
  last_tap_position : Option Coordinate := none
  last_action : Option AndroidActionType := none
  action_count : AndroidActionType → Nat := fun _ => 0
  max_attempts : Nat := 10
  must_type_next : Bool := false
  last_screen_state : Option String := none
  input_box_tapped : Bool := false
  keyboard_visible : Bool := false
  consecutive_same_tap_count : Nat := 0
  last_tap_coords : Option Coordinate := none
  typing_attempted : Bool := false
  last_tap_was_input : Bool := false

/-- The freshly-constructed tracker (`AndroidStateTracker.__init__`). -/
def AndroidStateTracker.initial : AndroidStateTracker := {}

/-- `AndroidStateTracker.update_state`, translated line by line (the
admission function; returns whether the action is allowed together with
the updated tracker).  The `text` argument is accepted and ignored, as in
the source.  `if coordinate:` is modelled as `coordinate.isSome`, which is
Python truthiness for the `Coordinate`-object arguments the agent passes
(a bare tuple `(0, 0)` would be falsy in Python; no caller passes one). -/
def AndroidStateTracker.update_state (st₀ : AndroidStateTracker)
    (action : AndroidActionType) (coordinate : Option Coordinate := none)
    (text : Option String := none) : Bool × AndroidStateTracker := Id.run do
  let _ := text
  let mut st := st₀
  -- Update action count
  st := { st with action_count := fun a => if a = action then st.action_count a + 1 else st.action_count a }
  -- Handle TYPE action specially - every branch admits and returns
  if action = .TYPE then
    if st.keyboard_visible || st.input_box_tapped || st.last_tap_was_input then
      return (true, { st with typing_attempted := true })
    if st.typing_attempted then
      return (true, st)
    return (true, { st with typing_attempted := true })
  -- Reset typing flag for non-type actions
  if action ≠ .TYPE then
    st := { st with typing_attempted := false }
  -- Special handling for exact same tap location
  if action = .TAP ∧ coordinate.isSome then
    if optCoordPyEqb st.last_tap_coords coordinate then
      st := { st with consecutive_same_tap_count := st.consecutive_same_tap_count + 1 }
      if st.consecutive_same_tap_count > 5 then
        if st.consecutive_same_tap_count > 8 then
          return (false, st)
    else
      st := { st with consecutive_same_tap_count := 0, last_tap_coords := coordinate }
  -- Redundant-action check
  if st.last_action = some action then
    if st.action_count action > st.max_attempts then
      st := { st with action_count := fun a => if a = action then 0 else st.action_count a }
      if action = .TAP ∧ st.consecutive_same_tap_count > 5 then
        return (false, st)
  -- Input-box tap detection (the `elif action == TYPE` arm of the source
  -- is unreachable: every TYPE submission returned above; it is kept here
  -- for textual fidelity)
  if action = .TAP ∧ coordinate.isSome then
    match coordinate with
    | some c =>
      let isInput := is_input_box c
      st := { st with last_tap_was_input := isInput }
      if isInput then
        st := { st with input_box_tapped := true, must_type_next := true, keyboard_visible := true }
    | none => pure ()
  else if action = .TYPE then
    st := { st with input_box_tapped := false, must_type_next := false }
  -- Update last action
  st := { st with last_action := some action }
  if coordinate.isSome then
    st := { st with last_tap_position := coordinate }
  return (true, st)

/-- `AndroidStateTracker.set_keyboard_visible`. -/
def AndroidStateTracker.set_keyboard_visible (st : AndroidStateTracker)
    (visible : Bool) : AndroidStateTracker :=
  let st := { st with keyboard_visible := visible }
  if visible then
    { st with input_box_tapped := true, must_type_next := true, last_tap_was_input := true }
  else st

/-- `AndroidStateTracker.reset`: restores every mutable field (it never
touches `max_attempts`, which is also never mutated elsewhere). -/
def AndroidStateTracker.reset (st : AndroidStateTracker) : AndroidStateTracker :=
  { st with
    last_tap_position := none
    last_action := none
    action_count := fun _ => 0
    must_type_next := false
    last_screen_state := none
    input_box_tapped := false
    consecutive_same_tap_count := 0
    last_tap_coords := none
    keyboard_visible := false
    typing_attempted := false
    last_tap_was_input := false }

/-! ## Python string primitives

Helpers modelling the Python string operations the response interpreter
uses.  Strings are processed as `List Char`; Python's `str.lower` is
modelled on ASCII (every pattern and table entry in the source is
ASCII). -/

/-- Python `s.lower()` (ASCII range). -/
def pyLower (s : String) : String := String.mk (s.data.map Char.toLower)

/-- `needle.isPrefixOf hay` on character lists. -/
def listIsPrefix (needle hay : List Char) : Bool := needle.isPrefixOf hay

/-- Auxiliary scan for substring containment. -/
def listContainsSub (needle : List Char) : List Char → Bool
  | [] => listIsPrefix needle []
  | c :: t => listIsPrefix needle (c :: t) || listContainsSub needle t

/-- Python `needle in hay` on strings. -/
def pyContains (hay needle : String) : Bool := listContainsSub needle.data hay.data

/-- Python whitespace for `str.strip` / `\s` (ASCII). -/
def isSpaceCh (c : Char) : Bool :=
  c = ' ' || c = '\t' || c = '\n' || c = '\r' || c = '\x0b' || c = '\x0c'

/-- Python `s.strip()`. -/
def pyStrip (s : String) : String :=
  String.mk ((s.data.dropWhile isSpaceCh).reverse.dropWhile isSpaceCh).reverse

/-- The characters of `s` strictly before the first occurrence of `sep`
(`s.split(sep)[0]` when `sep` is a single character). -/
def takeUntilChar (sep : Char) (s : String) : String :=
  String.mk (s.data.takeWhile fun c => c ≠ sep)

/-- Auxiliary scan for `pySplitOnceAfter`. -/
def splitOnceAfterAux (sep : List Char) : List Char → Option (List Char)
  | [] => if sep.isEmpty then some [] else none
  | c :: t =>
    if listIsPrefix sep (c :: t) then some ((c :: t).drop sep.length)
    else splitOnceAfterAux sep t

/-- Python `s.split(sep, 1)[1]`: the text after the first occurrence of
`sep`, or `none` when `sep` does not occur. -/
def pySplitOnceAfter (s sep : String) : Option String :=
  (splitOnceAfterAux sep.data s.data).map String.mk

/-- Python `\w` (ASCII): letters, digits and underscore. -/
def isWordCh (c : Char) : Bool := c.isAlphanum || c = '_'

/-- `none` (string edge) or a non-word character counts as a `\b`
boundary. -/
def boundaryOk (c : Option Char) : Bool :=
  match c with
  | none => true
  | some c => !isWordCh c

/-- Scan for a `\b w \b` match with the character preceding the current
position given as `prev`. -/
def wholeWordAux (w : List Char) (prev : Option Char) : List Char → Bool
  | [] => boundaryOk prev && listIsPrefix w [] && boundaryOk none
  | c :: t =>
    (boundaryOk prev && listIsPrefix w (c :: t) &&
      boundaryOk (((c :: t).drop w.length).head?)) ||
    wholeWordAux w (some c) t

/-- `re.search(r'\b(w1|w2|...)\b', s)` as a Boolean: some alternative
occurs in `s` delimited by word boundaries. -/
def hasWholeWordAlt (ws : List String) (s : String) : Bool :=
  ws.any fun w => wholeWordAux w.data none s.data

/-! ## A small backtracking regex engine

`openai_planner.py` matches a fixed set of `re` patterns.  Each pattern is
transliterated into a `List RPiece`; `rmatch` is a continuation-passing
backtracking matcher whose alternative ordering reproduces Python's
leftmost match with greedy (`*`, `?`, `+`) and lazy (`*?`, `+?`)
quantifiers, and `rsearch` reproduces `re.search` by trying successive
start positions.  A fuel argument bounds the (finite) backtracking; the
fuel supplied by `pySearch` is far larger than any pattern here can
consume. -/

/-- One piece of a compiled pattern. -/
inductive RPiece where
  | lit (s : String)
  | alts (ss : List String)
  | cls (p : Char → Bool)
  | star (p : Char → Bool)
  | opt (p : Char → Bool)
  | lazyStar (p : Char → Bool)
  | cap (sub : List RPiece)

/-- Backtracking matcher: `rmatch fuel ps cs caps k` tries to match the
pieces `ps` against a prefix of `cs`, accumulating capture groups into
`caps`, and calls the continuation `k` on the remainder; alternatives are
tried in the order Python's `re` would. -/
def rmatch : Nat → List RPiece → List Char → List String →
    (List Char → List String → Option (List String)) → Option (List String)
  | 0, _, _, _, _ => none
  | _ + 1, [], cs, caps, k => k cs caps
  | fuel + 1, p :: ps, cs, caps, k =>
    match p with
    | .lit s =>
      if listIsPrefix s.data cs then rmatch fuel ps (cs.drop s.data.length) caps k else none
    | .alts ss =>
      ss.foldl (fun acc s =>
        acc <|>
          (if listIsPrefix s.data cs then rmatch fuel ps (cs.drop s.data.length) caps k
           else none)) none
    | .cls q =>
      match cs with
      | c :: rest => if q c then rmatch fuel ps rest caps k else none
      | [] => none
    | .star q =>
      (match cs with
       | c :: rest => if q c then rmatch fuel (.star q :: ps) rest caps k else none
       | [] => none) <|>
      rmatch fuel ps cs caps k
    | .opt q =>
      (match cs with
       | c :: rest => if q c then rmatch fuel ps rest caps k else none
       | [] => none) <|>
      rmatch fuel ps cs caps k
    | .lazyStar q =>
      rmatch fuel ps cs caps k <|>
      (match cs with
       | c :: rest => if q c then rmatch fuel (.lazyStar q :: ps) rest caps k else none
       | [] => none)
    | .cap sub =>
      rmatch fuel sub cs []
        (fun cs' _ =>
          rmatch fuel ps cs' (caps ++ [String.mk (cs.take (cs.length - cs'.length))]) k)

/-- `re.search`: try a match at every start position, leftmost first. -/
def rsearch (fuel : Nat) (ps : List RPiece) : List Char → Option (List String)
  | [] => rmatch fuel ps [] [] (fun _ caps => some caps)
  | c :: t =>
    match rmatch fuel ps (c :: t) [] (fun _ caps => some caps) with
    | some r => some r
    | none => rsearch fuel ps t

/-- `re.search(pattern, s)`, returning the capture groups of the first
match (`[]` for a match without groups). -/
def pySearch (ps : List RPiece) (s : String) : Option (List String) :=
  rsearch ((s.data.length + 4) ^ 5) ps s.data

/-- `pySearch` as a Boolean (`re.search(...)` used as a condition). -/
def pyMatches (ps : List RPiece) (s : String) : Bool := (pySearch ps s).isSome

/-! ## Number conversions (`float(...)`, `int(...)` on strings) -/

/-- Value of a digit string (most significant first). -/
def natOfDigits (ds : List Char) : ℕ :=
  ds.foldl (fun a c => a * 10 + (c.toNat - 48)) 0

/-- Python `float(s)` on a string: optional sign, decimal digits with an
optional fractional part (at least one digit overall), optional exponent.
Exotic accepted forms (`inf`, `nan`, underscore separators) are not
modelled; no pattern in the source can produce them. -/
def pyFloatOfString (s : String) : Option Frac :=
  let cs := (pyStrip s).data
  let (sign, cs) :=
    match cs with
    | '-' :: t => ((-1 : ℤ), t)
    | '+' :: t => ((1 : ℤ), t)
    | _ => ((1 : ℤ), cs)
  let intDigits := cs.takeWhile Char.isDigit
  let cs := cs.dropWhile Char.isDigit
  let (fracDigits, cs) :=
    match cs with
    | '.' :: t => (t.takeWhile Char.isDigit, t.dropWhile Char.isDigit)
    | _ => ([], cs)
  if intDigits.isEmpty && fracDigits.isEmpty then none
  else
    let mantissa : Frac :=
      ⟨sign * ((natOfDigits intDigits : ℤ) * (10 : ℤ) ^ fracDigits.length +
        (natOfDigits fracDigits : ℤ)), 10 ^ fracDigits.length⟩
    match cs with
    | [] => some mantissa
    | e :: t =>
      if e = 'e' ∨ e = 'E' then
        let (esign, t) :=
          match t with
          | '-' :: t' => ((-1 : ℤ), t')
          | '+' :: t' => ((1 : ℤ), t')
          | _ => ((1 : ℤ), t)
        let eDigits := t.takeWhile Char.isDigit
        let t := t.dropWhile Char.isDigit
        if eDigits.isEmpty ∨ !t.isEmpty then none
        else some (mantissa.mul (Frac.pow10 (esign * (natOfDigits eDigits : ℤ))))
      else none

/-- Python `int(s)` on a string: optional sign and decimal digits only. -/
def pyIntOfString (s : String) : Option ℤ :=
  let cs := (pyStrip s).data
  let (sign, cs) :=
    match cs with
    | '-' :: t => ((-1 : ℤ), t)
    | '+' :: t => ((1 : ℤ), t)
    | _ => ((1 : ℤ), cs)
  if cs.isEmpty ∨ !(cs.all Char.isDigit) then none
  else some (sign * (natOfDigits cs : ℤ))

/-- Python `float(v)` on a dynamically-typed value: numbers pass through,
booleans become 0/1, strings are parsed, everything else raises
(`none`). -/
def pyFloat (v : JVal) : Option Frac :=
  match v with
  | .num q _ => some q
  | .bool b => some (Frac.ofInt (if b then 1 else 0))
  | .str s => pyFloatOfString s
  | _ => none

/-! ## Response interpreter: compiled patterns (`openai_planner.py`) -/

/-- `\d`. -/
def isDigitCh (c : Char) : Bool := c.isDigit

/-- `[^\d]` (matches newline too). -/
def notDigitCh (c : Char) : Bool := !c.isDigit

/-- `.` without `re.DOTALL`: any character except newline. -/
def notNlCh (c : Char) : Bool := c ≠ '\n'

/-- `["\']`. -/
def isQuoteCh (c : Char) : Bool := c = '"' || c = '\''

/-- `(\d+\.?\d*)`: a captured number. -/
def numGroup : RPiece :=
  .cap [.cls isDigitCh, .star isDigitCh, .opt (fun c => c = '.'), .star isDigitCh]

/-- `["\'](.+?)["\']`: captured quoted text. -/
def quotedGroup : List RPiece :=
  [.cls isQuoteCh, .cap [.cls notNlCh, .lazyStar notNlCh], .cls isQuoteCh]

/-- `(?:tap|click|touch|press)`. -/
def tapVerbs : List String := ["tap", "click", "touch", "press"]

/-- `\s*,\s*`. -/
def commaSep : List RPiece := [.star isSpaceCh, .lit ",", .star isSpaceCh]

/-- `(?:tap|click|touch|press).*?(\d+\.?\d*).*?(\d+\.?\d*)`. -/
def tapPattern1 : List RPiece :=
  [.alts tapVerbs, .lazyStar notNlCh, numGroup, .lazyStar notNlCh, numGroup]

/-- `(?:tap|click|touch|press).*?coordinates?\s*\(?\s*(num)\s*,\s*(num)\s*\)?`. -/
def tapPattern2 : List RPiece :=
  [.alts tapVerbs, .lazyStar notNlCh, .lit "coordinate", .opt (fun c => c = 's'),
   .star isSpaceCh, .opt (fun c => c = '('), .star isSpaceCh, numGroup] ++ commaSep ++
  [numGroup, .star isSpaceCh, .opt (fun c => c = ')')]

/-- `(?:tap|click|touch|press).*?at position\s*\(?\s*(num)\s*,\s*(num)\s*\)?`. -/
def tapPattern3 : List RPiece :=
  [.alts tapVerbs, .lazyStar notNlCh, .lit "at position",
   .star isSpaceCh, .opt (fun c => c = '('), .star isSpaceCh, numGroup] ++ commaSep ++
  [numGroup, .star isSpaceCh, .opt (fun c => c = ')')]

/-- `(?:tap|click|touch|press).*?location\s*\(?\s*(num)\s*,\s*(num)\s*\)?`. -/
def tapPattern4 : List RPiece :=
  [.alts tapVerbs, .lazyStar notNlCh, .lit "location",
   .star isSpaceCh, .opt (fun c => c = '('), .star isSpaceCh, numGroup] ++ commaSep ++
  [numGroup, .star isSpaceCh, .opt (fun c => c = ')')]

/-- `(?:tap|click|touch|press).*?x\s*=\s*(num).*?y\s*=\s*(num)`. -/
def tapPattern5 : List RPiece :=
  [.alts tapVerbs, .lazyStar notNlCh, .lit "x", .star isSpaceCh, .lit "=",
   .star isSpaceCh, numGroup, .lazyStar notNlCh, .lit "y", .star isSpaceCh,
   .lit "=", .star isSpaceCh, numGroup]

/-- The ordered tap-pattern list from `_infer_action_from_text`. -/
def tapPatterns : List (List RPiece) :=
  [tapPattern1, tapPattern2, tapPattern3, tapPattern4, tapPattern5]

/-- `(\d+\.?\d*)[^\d]+(\d+\.?\d*)` (the proximity fallback). -/
def numPairPattern : List RPiece :=
  [numGroup, .cls notDigitCh, .star notDigitCh, numGroup]

/-- `\(?(num)\s*,\s*(num)\)?` (used by the swipe patterns). -/
def parenNumPair : List RPiece :=
  [.opt (fun c => c = '('), numGroup] ++ commaSep ++ [numGroup, .opt (fun c => c = ')')]

/-- `swipe.*?from.*?PAIR.*?to.*?PAIR`. -/
def swipePattern1 : List RPiece :=
  [.lit "swipe", .lazyStar notNlCh, .lit "from", .lazyStar notNlCh] ++ parenNumPair ++
  [.lazyStar notNlCh, .lit "to", .lazyStar notNlCh] ++ parenNumPair

/-- `swipe.*?start.*?PAIR.*?end.*?PAIR`. -/
def swipePattern2 : List RPiece :=
  [.lit "swipe", .lazyStar notNlCh, .lit "start", .lazyStar notNlCh] ++ parenNumPair ++
  [.lazyStar notNlCh, .lit "end", .lazyStar notNlCh] ++ parenNumPair

/-- `drag.*?from.*?PAIR.*?to.*?PAIR`. -/
def swipePattern3 : List RPiece :=
  [.lit "drag", .lazyStar notNlCh, .lit "from", .lazyStar notNlCh] ++ parenNumPair ++
  [.lazyStar notNlCh, .lit "to", .lazyStar notNlCh] ++ parenNumPair

/-- The ordered swipe-pattern list. -/
def swipePatterns : List (List RPiece) :=
  [swipePattern1, swipePattern2, swipePattern3]

/-- `KW\s+["\'](.+?)["\']` for a typing keyword `KW`. -/
def typePattern (kw : String) : List RPiece :=
  [.lit kw, .cls isSpaceCh, .star isSpaceCh] ++ quotedGroup

/-- The keyword list of the `type_patterns` loop. -/
def typePatternKeywords : List String :=
  ["type", "input", "enter", "write", "text", "keyboard"]

/-- The four launch patterns, in source order. -/
def launchPatterns : List (List RPiece) :=
  [ [.lit "launch", .lazyStar notNlCh] ++ quotedGroup,
    [.lit "open app", .lazyStar notNlCh] ++ quotedGroup,
    [.lit "start", .lazyStar notNlCh, .lit "app", .lazyStar notNlCh] ++ quotedGroup,
    [.lit "open", .lazyStar notNlCh, .lit "application", .lazyStar notNlCh] ++ quotedGroup ]

/-! ## Response interpreter: `_infer_action_from_text` -/

/-- First `some` produced by `f` over a list (Python's
first-match-wins loops). -/
def firstSome {α β : Type} (f : α → Option β) : List α → Option β
  | [] => none
  | x :: xs =>
    match f x with
    | some r => some r
    | none => firstSome f xs

/-- The exact-phrase `action_map` of `_infer_action_from_text`, in dict
insertion order: phrase, action type, and the `value` passed as the key
code for `PRESS` entries. -/
def infer_phrase_map : List (String × AndroidActionType × Option ℤ) :=
  [ ("go home", .PRESS, some 3),
    ("press home", .PRESS, some 3),
    ("home screen", .PRESS, some 3),
    ("return to home", .PRESS, some 3),
    ("go back", .PRESS, some 4),
    ("press back", .PRESS, some 4),
    ("return to previous", .PRESS, some 4),
    ("task completed", .SUCCESS, none),
    ("goal achieved", .SUCCESS, none),
    ("mission accomplished", .SUCCESS, none),
    ("completed successfully", .SUCCESS, none),
    ("cannot complete", .FAILURE, none),
    ("unable to proceed", .FAILURE, none),
    ("failed to achieve", .FAILURE, none),
    ("scroll up", .SWIPE_UP, none),
    ("scroll down", .SWIPE_DOWN, none),
    ("swipe up", .SWIPE_UP, none),
    ("swipe down", .SWIPE_DOWN, none) ]

/-- Keyword list of the success check. -/
def successWords : List String :=
  ["success", "goal achieved", "task complete", "done", "finished", "completed"]

/-- Keyword list of the failure check (the fourth entry models the
source's "couldn" followed by an apostrophe and "t"). -/
def failureWords : List String :=
  ["fail", "cannot", "unable", String.mk ['c','o','u','l','d','n','\'','t'], "error", "issue"]

/-- `\b(home|main screen|launcher)\b` alternatives. -/
def homeWordAlts : List String := ["home", "main screen", "launcher"]

/-- `\b(back|previous|return)\b` alternatives. -/
def backWordAlts : List String := ["back", "previous", "return"]

/-- Keyword list of the final quoted-text block. -/
def finalTypeKeywords : List String := ["type", "input", "enter", "write", "text"]

/-- The coordinate conversion of the parser (openai_planner.py lines
293-310, and identically lines 566-572, 593-599): a pair with both
components in [0, 1] is fractional and is scaled by 1000; otherwise both
components are truncated to `int` unchanged in magnitude. -/
def normalize_tap_coordinates (x y : Frac) : Coordinate :=
  if Frac.leb 0 x && Frac.leb x 1 && Frac.leb 0 y && Frac.leb y 1 then
    { x := Frac.ofInt (pyInt (x.mul 1000)), y := Frac.ofInt (pyInt (y.mul 1000)) }
  else
    { x := Frac.ofInt (pyInt x), y := Frac.ofInt (pyInt y) }

/-- The swipe variant (lines 403-414, 626-635): all four components in
[0, 1] means fractional. -/
def normalize_swipe_coordinates (sx sy ex ey : Frac) : Coordinate × Coordinate :=
  if Frac.leb 0 sx && Frac.leb sx 1 && Frac.leb 0 sy && Frac.leb sy 1 &&
      Frac.leb 0 ex && Frac.leb ex 1 && Frac.leb 0 ey && Frac.leb ey 1 then
    ({ x := Frac.ofInt (pyInt (sx.mul 1000)), y := Frac.ofInt (pyInt (sy.mul 1000)) },
     { x := Frac.ofInt (pyInt (ex.mul 1000)), y := Frac.ofInt (pyInt (ey.mul 1000)) })
  else
    ({ x := Frac.ofInt (pyInt sx), y := Frac.ofInt (pyInt sy) },
     { x := Frac.ofInt (pyInt ex), y := Frac.ofInt (pyInt ey) })

/-- First phrase of `infer_phrase_map` contained in the (lowered) text. -/
def phraseMatch (t : String) : Option (String × AndroidActionType × Option ℤ) :=
  infer_phrase_map.find? fun p => pyContains t p.1

/-- First type pattern that matches, with its captured text. -/
def typePatternExtract (t : String) : Option String :=
  firstSome (fun kw => (pySearch (typePattern kw) t).bind fun caps => caps.head?)
    typePatternKeywords

/-- Decode two captured number strings into floats. -/
def twoFloats (caps : List String) : Option (Frac × Frac) :=
  match caps with
  | [a, b] => (pyFloatOfString a).bind fun x => (pyFloatOfString b).map fun y => (x, y)
  | _ => none

/-- Decode four captured number strings into floats. -/
def fourFloats (caps : List String) : Option (Frac × Frac × Frac × Frac) :=
  match caps with
  | [a, b, c, d] =>
    (pyFloatOfString a).bind fun x =>
      (pyFloatOfString b).bind fun y =>
        (pyFloatOfString c).bind fun z =>
          (pyFloatOfString d).map fun w => (x, y, z, w)
  | _ => none

/-- First tap pattern that matches with convertible coordinates. -/
def tapPatternExtract (t : String) : Option (Frac × Frac) :=
  firstSome (fun ps => (pySearch ps t).bind twoFloats) tapPatterns

/-- The proximity number-pair fallback. -/
def numPairExtract (t : String) : Option (Frac × Frac) :=
  (pySearch numPairPattern t).bind twoFloats

/-- First swipe pattern that matches with convertible coordinates. -/
def swipePatternExtract (t : String) : Option (Frac × Frac × Frac × Frac) :=
  firstSome (fun ps => (pySearch ps t).bind fourFloats) swipePatterns

/-- First launch pattern that matches, with the captured app name. -/
def launchPatternExtract (t : String) : Option String :=
  firstSome (fun ps => (pySearch ps t).bind fun caps => caps.head?) launchPatterns

/-- `re.search(r'[\'"](.+?)[\'"]', text)` of the final block. -/
def quotedExtract (t : String) : Option String :=
  (pySearch quotedGroup t).bind fun caps => caps.head?

/-- The keyword-split extraction of the final block: for the first
contained keyword, the text after its first occurrence, stripped, cut at
the first newline, cut at the first period, stripped again — accepted when
non-empty and shorter than 100 characters. -/
def typeKwSplitExtract (t : String) : Option String :=
  firstSome
    (fun kw =>
      if pyContains t kw then
        (pySplitOnceAfter t kw).bind fun rest =>
          let parts := pyStrip (takeUntilChar '.' (takeUntilChar '\n' (pyStrip rest)))
          if parts ≠ "" ∧ parts.length < 100 then some parts else none
      else none)
    finalTypeKeywords

/-- `OpenAIPlanner._infer_action_from_text`, translated rule by rule in
source order.  Total by construction: the final rule returns the
`Press(home)` default. -/
def infer_action_from_text (raw : String) : AndroidAction := Id.run do
  let t := pyLower raw
  -- Check for exact phrases first
  match phraseMatch t with
  | some (_, ty, value) =>
    if ty = .PRESS then return { action := ty, key := value.map jint }
    else return { action := ty }
  | none => pure ()
  -- Look for success or failure indications
  if successWords.any (fun w => pyContains t w) then
    return { action := .SUCCESS }
  if failureWords.any (fun w => pyContains t w) then
    return { action := .FAILURE }
  -- Home and back commands
  if hasWholeWordAlt homeWordAlts t then
    return { action := .PRESS, key := some (jint 3) }
  if hasWholeWordAlt backWordAlts t then
    return { action := .PRESS, key := some (jint 4) }
  -- Type/input actions
  match typePatternExtract t with
  | some content => return { action := .TYPE, text := some (.str content) }
  | none => pure ()
  -- Tap indications
  match tapPatternExtract t with
  | some (x, y) =>
    return { action := .TAP, coordinate := some (normalize_tap_coordinates x y) }
  | none => pure ()
  -- Tap/click mention without coordinates: search numbers in proximity
  if tapVerbs.any (fun w => pyContains t w) then
    match numPairExtract t with
    | some (x, y) =>
      return { action := .TAP, coordinate := some (normalize_tap_coordinates x y) }
    | none => pure ()
  -- Swipe with detailed patterns
  match swipePatternExtract t with
  | some (sx, sy, ex, ey) =>
    let (s, e) := normalize_swipe_coordinates sx sy ex ey
    return { action := .SWIPE, swipe := some { start := s, end_ := e, duration := jint 100 } }
  | none => pure ()
  -- Swipe up/down directions
  if ["swipe up", "scroll up", "flick up"].any (fun w => pyContains t w) then
    return { action := .SWIPE_UP }
  if ["swipe down", "scroll down", "flick down"].any (fun w => pyContains t w) then
    return { action := .SWIPE_DOWN }
  -- Launch app
  match launchPatternExtract t with
  | some appName => return { action := .LAUNCH_APP, text := some (.str appName) }
  | none => pure ()
  -- Final quoted-text block
  if finalTypeKeywords.any (fun w => pyContains t w) then
    match quotedExtract t with
    | some content => return { action := .TYPE, text := some (.str content) }
    | none =>
      match typeKwSplitExtract t with
      | some parts => return { action := .TYPE, text := some (.str parts) }
      | none => pure ()
  -- Default to pressing home
  return { action := .PRESS, key := some (jint 3) }

/-! ## JSON decoding (`json.loads`) -/

/-- JSON whitespace. -/
def jsonWs (c : Char) : Bool := c = ' ' || c = '\t' || c = '\n' || c = '\r'

/-- Decode a JSON string body (after the opening quote), with the common
escapes; bare control characters are rejected as `json.loads` does. -/
def jparseString : Nat → List Char → List Char → Option (String × List Char)
  | 0, _, _ => none
  | fuel + 1, cs, acc =>
    match cs with
    | [] => none
    | '"' :: t => some (String.mk acc.reverse, t)
    | '\\' :: e :: t =>
      match e with
      | '"' => jparseString fuel t ('"' :: acc)
      | '\\' => jparseString fuel t ('\\' :: acc)
      | '/' => jparseString fuel t ('/' :: acc)
      | 'b' => jparseString fuel t ('\x08' :: acc)
      | 'f' => jparseString fuel t ('\x0c' :: acc)
      | 'n' => jparseString fuel t ('\n' :: acc)
      | 'r' => jparseString fuel t ('\r' :: acc)
      | 't' => jparseString fuel t ('\t' :: acc)
      | 'u' =>
        match t with
        | h1 :: h2 :: h3 :: h4 :: t' =>
          let hv := fun (c : Char) =>
            if c.isDigit then some (c.toNat - 48)
            else if 'a' ≤ c ∧ c ≤ 'f' then some (c.toNat - 87)
            else if 'A' ≤ c ∧ c ≤ 'F' then some (c.toNat - 55)
            else none
          match hv h1, hv h2, hv h3, hv h4 with
          | some a, some b, some c, some d =>
            jparseString fuel t' (Char.ofNat (((a * 16 + b) * 16 + c) * 16 + d) :: acc)
          | _, _, _, _ => none
        | _ => none
      | _ => none
    | c :: t => if c.toNat < 32 then none else jparseString fuel t (c :: acc)

/-- Decode a JSON number (no recursion). -/
def jparseNumber (cs : List Char) : Option (JVal × List Char) :=
  let (sign, cs') :=
    match cs with
    | '-' :: t => ((-1 : ℤ), t)
    | _ => ((1 : ℤ), cs)
  let intDigits := cs'.takeWhile Char.isDigit
  let rest := cs'.dropWhile Char.isDigit
  if intDigits.isEmpty then none
  else if intDigits.length > 1 ∧ intDigits.head? = some '0' then none
  else
    let (fracDigits, rest, hasFrac) :=
      match rest with
      | '.' :: t =>
        let fd := t.takeWhile Char.isDigit
        (fd, t.dropWhile Char.isDigit, true)
      | _ => ([], rest, false)
    if hasFrac ∧ fracDigits.isEmpty then none
    else
      let mant : Frac :=
        ⟨sign * ((natOfDigits intDigits : ℤ) * (10 : ℤ) ^ fracDigits.length +
          (natOfDigits fracDigits : ℤ)), 10 ^ fracDigits.length⟩
      match rest with
      | e :: t =>
        if e = 'e' ∨ e = 'E' then
          let (esign, t') :=
            match t with
            | '-' :: t2 => ((-1 : ℤ), t2)
            | '+' :: t2 => ((1 : ℤ), t2)
            | _ => ((1 : ℤ), t)
          let eDigits := t'.takeWhile Char.isDigit
          if eDigits.isEmpty then none
          else
            some (.num (mant.mul (Frac.pow10 (esign * (natOfDigits eDigits : ℤ)))) true,
              t'.dropWhile Char.isDigit)
        else some (.num mant hasFrac, rest)
      | [] => some (.num mant hasFrac, rest)

mutual

/-- Decode one JSON value. -/
def jparseVal : Nat → List Char → Option (JVal × List Char)
  | 0, _ => none
  | fuel + 1, cs =>
    let cs := cs.dropWhile jsonWs
    match cs with
    | '\x7b' :: t => jparseObjFields fuel t []
    | '[' :: t => jparseArrItems fuel t []
    | '"' :: t => (jparseString (t.length + 1) t []).map fun p => (.str p.1, p.2)
    | 't' :: _ =>
      if listIsPrefix "true".data cs then some (.bool true, cs.drop 4) else none
    | 'f' :: _ =>
      if listIsPrefix "false".data cs then some (.bool false, cs.drop 5) else none
    | 'n' :: _ =>
      if listIsPrefix "null".data cs then some (.null, cs.drop 4) else none
    | _ => jparseNumber cs

/-- Decode the members of a JSON object (after the opening brace). -/
def jparseObjFields : Nat → List Char → List (String × JVal) →
    Option (JVal × List Char)
  | 0, _, _ => none
  | fuel + 1, cs, acc =>
    let cs := cs.dropWhile jsonWs
    match acc, cs with
    | [], '\x7d' :: t => some (.obj [], t)
    | _, '"' :: t =>
      (jparseString (t.length + 1) t []).bind fun (k, rest) =>
        match rest.dropWhile jsonWs with
        | ':' :: r2 =>
          (jparseVal fuel r2).bind fun (v, r3) =>
            match r3.dropWhile jsonWs with
            | ',' :: r4 => jparseObjFields fuel r4 (acc ++ [(k, v)])
            | '\x7d' :: r4 => some (.obj (acc ++ [(k, v)]), r4)
            | _ => none
        | _ => none
    | _, _ => none

/-- Decode the items of a JSON array (after the opening bracket). -/
def jparseArrItems : Nat → List Char → List JVal → Option (JVal × List Char)
  | 0, _, _ => none
  | fuel + 1, cs, acc =>
    let cs := cs.dropWhile jsonWs
    match acc, cs with
    | [], ']' :: t => some (.arr [], t)
    | _, _ =>
      (jparseVal fuel cs).bind fun (v, r) =>
        match r.dropWhile jsonWs with
        | ',' :: r2 => jparseArrItems fuel r2 (acc ++ [v])
        | ']' :: r2 => some (.arr (acc ++ [v]), r2)
        | _ => none

end

/-- `json.loads`: decode a complete JSON document (`NaN`/`Infinity`
extensions are not modelled). -/
def json_loads (s : String) : Option JVal :=
  (jparseVal (s.length + 2) s.data).bind fun (v, rest) =>
    if (rest.dropWhile jsonWs).isEmpty then some v else none

/-! ## `str(...)` of a decoded payload (CPython `repr`-style rendering)

Used only by the PRESS branch of `parse_action_response`, which searches
`str(action_json).lower()` for the substrings "back" and "home"; only the
rendering of strings matters for those searches. -/

/-- CPython `repr` of a string: single-quoted unless the content contains
a single quote and no double quote; backslashes, quotes, newlines, tabs
and carriage returns are escaped. -/
def pyReprStr (s : String) : String :=
  let useDouble := s.data.contains '\'' && !s.data.contains '"'
  let q : Char := if useDouble then '"' else '\''
  let body := s.data.foldr
    (fun c acc =>
      if c = '\\' then '\\' :: '\\' :: acc
      else if c = q then '\\' :: q :: acc
      else if c = '\n' then '\\' :: 'n' :: acc
      else if c = '\r' then '\\' :: 'r' :: acc
      else if c = '\t' then '\\' :: 't' :: acc
      else c :: acc) []
  String.mk (q :: body ++ [q])

/-- Decimal rendering of a float value whose denominator divides a power
of ten (every float the JSON decoder can produce is of this form). -/
def decimalOfFrac (q : Frac) : String :=
  let sign := if q.num < 0 then "-" else ""
  let n := q.num.natAbs
  let ip := n / q.den
  let rem := n % q.den
  let k := (List.range 40).find? fun k => (rem * 10 ^ k) % q.den = 0
  match k with
  | some k =>
    if k = 0 then sign ++ toString ip ++ ".0"
    else
      let digits := toString ((rem * 10 ^ k) / q.den)
      let padded := String.mk (List.replicate (k - digits.length) '0' ++ digits.data)
      sign ++ toString ip ++ "." ++ padded
  | none => sign ++ toString q.num ++ "/" ++ toString q.den

mutual

/-- CPython `str(v)` for a decoded JSON value. -/
def pyReprJVal : JVal → String
  | .str s => pyReprStr s
  | .num q false => toString q.num
  | .num q true => decimalOfFrac q
  | .bool b => if b then "True" else "False"
  | .null => "None"
  | .arr xs => "[" ++ String.intercalate ", " (pyReprJValList xs) ++ "]"
  | .obj fs => "\x7b" ++ String.intercalate ", " (pyReprJValFields fs) ++ "\x7d"

/-- Renderings of the items of a list. -/
def pyReprJValList : List JVal → List String
  | [] => []
  | x :: xs => pyReprJVal x :: pyReprJValList xs

/-- Renderings of the `'key': value` members of a dict. -/
def pyReprJValFields : List (String × JVal) → List String
  | [] => []
  | (k, v) :: fs => (pyReprStr k ++ ": " ++ pyReprJVal v) :: pyReprJValFields fs

end

/-! ## Response interpreter: structured phase (`parse_action_response`) -/

/-- `dict` lookup on decoded JSON fields (duplicate keys: last wins, as in
`json.loads`). -/
def dictGet (fs : List (String × JVal)) (k : String) : Option JVal :=
  (fs.reverse.find? fun p => p.1 == k).map (·.2)

/-- Scan for the closing `\n`-backtick-backtick-backtick of a payload
block; returns the (lazy, hence shortest) content before it. -/
def findBlockClose (acc : List Char) : List Char → Option String
  | [] => none
  | c :: t =>
    if listIsPrefix ['\n', '`', '`', '`'] (c :: t) then some (String.mk acc.reverse)
    else findBlockClose (c :: acc) t

/-- `re.search` for the delimited payload block
(three backticks, `json` or `action`, newline, lazy content, newline,
three backticks — with `re.DOTALL`): earliest opener whose closer exists,
with the shortest content. -/
def find_code_block_aux : List Char → Option String
  | [] => none
  | c :: t =>
    if listIsPrefix ("```json\n".data) (c :: t) then
      match findBlockClose [] ((c :: t).drop 8) with
      | some r => some r
      | none => find_code_block_aux t
    else if listIsPrefix ("```action\n".data) (c :: t) then
      match findBlockClose [] ((c :: t).drop 10) with
      | some r => some r
      | none => find_code_block_aux t
    else find_code_block_aux t

/-- The payload-block extraction at the top of `parse_action_response`. -/
def find_code_block (s : String) : Option String := find_code_block_aux s.data

/-- The `action_map` of `parse_action_response`, in dict insertion order
("back" and "home" map to PRESS; their key codes are fixed later in the
PRESS branch). -/
def action_map_entries : List (String × AndroidActionType) :=
  [ ("tap", .TAP), ("click", .TAP), ("type", .TYPE), ("input", .TYPE),
    ("press", .PRESS), ("swipe", .SWIPE), ("swipe_up", .SWIPE_UP),
    ("swipeup", .SWIPE_UP), ("swipe_down", .SWIPE_DOWN),
    ("swipedown", .SWIPE_DOWN), ("screenshot", .SCREENSHOT),
    ("launch_app", .LAUNCH_APP), ("launchapp", .LAUNCH_APP),
    ("success", .SUCCESS), ("failure", .FAILURE),
    ("back", .PRESS), ("home", .PRESS) ]

/-- TAP branch of the structured phase (openai_planner.py lines 275-313). -/
def parse_tap_branch (obj : List (String × JVal)) (fb : AndroidAction) : AndroidAction :=
  let xy? : Option (Option JVal × Option JVal) :=
    if (dictGet obj "x").isSome ∧ (dictGet obj "y").isSome then
      some (dictGet obj "x", dictGet obj "y")
    else
      match dictGet obj "coordinate" with
      | some (.obj c) => some (dictGet c "x", dictGet c "y")
      | _ =>
        match dictGet obj "coordinates" with
        | some (.arr xs) =>
          if xs.length ≥ 2 then some (xs.get? 0, xs.get? 1) else none
        | _ => none
  match xy? with
  | none => fb
  | some (xv, yv) =>
    match xv.bind pyFloat, yv.bind pyFloat with
    | some x, some y => { action := .TAP, coordinate := some (normalize_tap_coordinates x y) }
    | _, _ => fb

/-- TYPE branch (lines 315-330): the first present field wins; a falsy
value falls back to inference. -/
def parse_type_branch (obj : List (String × JVal)) (fb : AndroidAction) : AndroidAction :=
  match firstSome (fun f => dictGet obj f) ["text", "input", "value", "content"] with
  | some v => if v.truthy then { action := .TYPE, text := some v } else fb
  | none => fb

/-- PRESS branch (lines 332-362), including the `str(action_json)`
substring fallback and the string-to-int key conversion. -/
def parse_press_branch (atype : String) (obj : List (String × JVal))
    (fb : AndroidAction) : AndroidAction :=
  let key0 : Option JVal :=
    if atype == "back" then some (jint 4)
    else if atype == "home" then some (jint 3)
    else
      let kv : Option JVal :=
        match dictGet obj "key" with
        | some .null => none
        | o => o
      match kv with
      | some k => some k
      | none =>
        let reprLower := pyLower (pyReprJVal (.obj obj))
        if pyContains reprLower "back" then some (jint 4)
        else if pyContains reprLower "home" then some (jint 3)
        else none
  match key0 with
  | none => fb
  | some k =>
    let k :=
      match k with
      | .str s =>
        match pyIntOfString s with
        | some n => jint n
        | none =>
          if pyLower s == "back" then jint 4
          else if pyLower s == "home" then jint 3
          else jint 0
      | other => other
    { action := .PRESS, key := some k }

/-- SWIPE branch (lines 364-428): the four accepted coordinate shapes; a
non-dict `from`/`to`/`start`/`end` raises inside the `try` and falls back
to inference. -/
def parse_swipe_branch (obj : List (String × JVal)) (fb : AndroidAction) : AndroidAction :=
  let has := fun k => (dictGet obj k).isSome
  let quad? : Option (Option JVal × Option JVal × Option JVal × Option JVal) :=
    if has "start_x" ∧ has "start_y" ∧ has "end_x" ∧ has "end_y" then
      some (dictGet obj "start_x", dictGet obj "start_y",
        dictGet obj "end_x", dictGet obj "end_y")
    else if has "x" ∧ has "y" ∧ has "end_x" ∧ has "end_y" then
      some (dictGet obj "x", dictGet obj "y", dictGet obj "end_x", dictGet obj "end_y")
    else if has "from" ∧ has "to" then
      match dictGet obj "from", dictGet obj "to" with
      | some (.obj f), some (.obj t) =>
        some (dictGet f "x", dictGet f "y", dictGet t "x", dictGet t "y")
      | _, _ => none
    else if has "start" ∧ has "end" then
      match dictGet obj "start", dictGet obj "end" with
      | some (.obj f), some (.obj t) =>
        some (dictGet f "x", dictGet f "y", dictGet t "x", dictGet t "y")
      | _, _ => none
    else none
  match quad? with
  | none => fb
  | some (a, b, c, d) =>
    match a.bind pyFloat, b.bind pyFloat, c.bind pyFloat, d.bind pyFloat with
    | some sx, some sy, some ex, some ey =>
      let (s, e) := normalize_swipe_coordinates sx sy ex ey
      let dur := (dictGet obj "duration").getD (jint 100)
      { action := .SWIPE, swipe := some { start := s, end_ := e, duration := dur } }
    | _, _, _, _ => fb

/-- LAUNCH_APP branch (lines 433-448): the app name is looked up in the
listed fields and stored in the `text` field of the action (the `package`
field is never set). -/
def parse_launch_branch (obj : List (String × JVal)) (fb : AndroidAction) : AndroidAction :=
  match firstSome (fun f => dictGet obj f) ["text", "app", "package", "name"] with
  | some v => if v.truthy then { action := .LAUNCH_APP, text := some v } else fb
  | none => fb

/-- The structured phase of `parse_action_response` applied to a decoded
JSON object; `raw` is the full reply, used by every fallback to
inference. -/
def parse_structured (obj : List (String × JVal)) (raw : String) : AndroidAction :=
  let fb := infer_action_from_text raw
  match ["action", "action_type", "type"].find? (fun k => (dictGet obj k).isSome) with
  | none => fb
  | some actionKey =>
    match dictGet obj actionKey with
    | some (.str s0) =>
      let atypeRaw := pyLower s0
      let atype? :=
        if action_map_entries.any (fun p => p.1 == atypeRaw) then some atypeRaw
        else (action_map_entries.find? fun p => pyContains atypeRaw p.1).map (·.1)
      match atype? with
      | none => fb
      | some atype =>
        match (action_map_entries.find? fun p => p.1 == atype).map (·.2) with
        | none => fb
        | some mapped =>
          match mapped with
          | .TAP => parse_tap_branch obj fb
          | .TYPE => parse_type_branch obj fb
          | .PRESS => parse_press_branch atype obj fb
          | .SWIPE => parse_swipe_branch obj fb
          | .SWIPE_UP => { action := .SWIPE_UP }
          | .SWIPE_DOWN => { action := .SWIPE_DOWN }
          | .LAUNCH_APP => parse_launch_branch obj fb
          | .SUCCESS => { action := .SUCCESS }
          | .FAILURE => { action := .FAILURE }
          | _ => fb
    | _ => fb

/-- `OpenAIPlanner.parse_action_response`.  No payload block, an
undecodable block, or a decoded non-dict document (every access on which
raises inside the `try` and is caught) falls back to free-text
inference. -/
def parse_action_response (s : String) : AndroidAction :=
  match find_code_block s with
  | none => infer_action_from_text s
  | some jtext =>
    match json_loads jtext with
    | some (.obj fields) => parse_structured fields s
    | _ => infer_action_from_text s

/-! ## Loop controller (`android_agent.py`)

`AndroidAgent.step` and `AndroidAgent._take_action` interleave device
I/O with state updates.  Each device or planner interaction is modelled as
an input taken from an environment record, and every outward call is
recorded in a trace of `Effect`s, so that theorems can state what was and
was not executed on the device.  A call to the State Tracker's admission
function `update_state` would be recorded as an `admitCall` effect. -/

/-- One outward-facing interaction of the loop controller. -/
inductive Effect where
  | admitCall (action : AndroidActionType) (coordinate : Option Coordinate)
  | deviceTap (x y : Frac)
  | deviceType (text : JVal)
  | deviceSwipe (x1 y1 x2 y2 : Frac)
  | deviceSwipeUp
  | deviceSwipeDown
  | devicePressBack
  | devicePressHome
  | deviceKeyEvent (key : JVal)
  | deviceLaunch (package : JVal) (activity : Option JVal)
  | deviceMonkeyLaunch (package : String)
  | deviceShellChromeLaunch
  | deviceUiAutoType (text : String)
  | deviceSleep
  | deviceScreenshot
  | pauseForInput

/-- Is this effect a submission to the State Tracker's admission
function? -/
def Effect.isAdmitCall : Effect → Bool
  | .admitCall _ _ => true
  | _ => false

/-- Is this effect a swipe executed on the device? -/
def Effect.isDeviceSwipe : Effect → Bool
  | .deviceSwipe _ _ _ _ => true
  | _ => false

/-- Is this effect an app launch on the device (`launch_app` or a monkey
launcher event)? -/
def Effect.isDeviceLaunch : Effect → Bool
  | .deviceLaunch _ _ => true
  | .deviceMonkeyLaunch _ => true
  | _ => false

/-- Is this effect a tap executed on the device? -/
def Effect.isDeviceTap : Effect → Bool
  | .deviceTap _ _ => true
  | _ => false

/-- Device-call outcomes consumed by `_take_action`. -/
structure TakeActionEnv where
  tap_ok : Bool := true
  tap_offset_ok : Bool := true
  keyevent_ok : Bool := true
  launch_results : String → Bool := fun _ => true
  monkey_raises : Bool := false
  monkey_stdout : String := ""
  current_app_after_chrome : String := ""

/-- The mutable state of `AndroidAgent` (`__init__` together with the
lazily-created attributes `home_screen_attempts`, `last_actions` and
`last_input_tap_coords`, whose defaults model the `getattr`/`hasattr`
guards).  `max_steps`, `pause_after_each_action` and the truthiness of
`screenshot_dir` come from `AndroidAgentOptions`. -/
structure AndroidAgent where
  max_steps : ℕ := 50
  pause_after_each_action : Bool := false
  screenshot_dir_set : Bool := true
  status : AndroidGoalState := .INITIAL
  history : List AndroidStep := []
  action_counts : AndroidActionType → ℕ := fun _ => 0
  last_state_hash : Option String := none
  repeated_states : ℕ := 0
  max_repeated_states : ℕ := 3
  state_tracker : AndroidStateTracker := {}
  home_screen_attempts : ℕ := 0
  last_actions : List AndroidActionType := []
  last_input_tap_coords : Option Coordinate := none

/-- A freshly-constructed agent. -/
def AndroidAgent.initial : AndroidAgent := {}

/-- Increment one entry of the per-action-type counter dict. -/
def bumpCount (f : AndroidActionType → ℕ) (a : AndroidActionType) :
    AndroidActionType → ℕ :=
  fun b => if b = a then f b + 1 else f b

/-- The Chrome package-name list of `_take_action`. -/
def chromePackagesTake : List String :=
  ["com.android.chrome", "com.chrome.beta", "com.google.android.apps.chrome",
   "org.chromium.chrome"]

/-- The Chrome-specific launch strategies of `_take_action`
(android_agent.py lines 228-276): standard launch, the alternative
package loop (`chromePackagesTake`, skipping the requested package),
the monkey fallback, and the final foreground-app verification.  Returns
the reported success and the device interactions; the agent state is not
touched in this block. -/
def chrome_launch_strategies (p : JVal) (activity : Option JVal) (pkg : String)
    (env : TakeActionEnv) : Bool × List Effect := Id.run do
  -- 1. standard launch
  let mut fx : List Effect := [.deviceLaunch p activity]
  if !env.launch_results pkg then
    -- 2. alternative Chrome packages, in order, skipping the requested one
    if "com.android.chrome" ≠ pkg then
      fx := fx ++ [.deviceLaunch (.str "com.android.chrome") none]
      if env.launch_results "com.android.chrome" then
        return (true, fx ++ [.deviceSleep])
    if "com.chrome.beta" ≠ pkg then
      fx := fx ++ [.deviceLaunch (.str "com.chrome.beta") none]
      if env.launch_results "com.chrome.beta" then
        return (true, fx ++ [.deviceSleep])
    if "com.google.android.apps.chrome" ≠ pkg then
      fx := fx ++ [.deviceLaunch (.str "com.google.android.apps.chrome") none]
      if env.launch_results "com.google.android.apps.chrome" then
        return (true, fx ++ [.deviceSleep])
    if "org.chromium.chrome" ≠ pkg then
      fx := fx ++ [.deviceLaunch (.str "org.chromium.chrome") none]
      if env.launch_results "org.chromium.chrome" then
        return (true, fx ++ [.deviceSleep])
    -- monkey fallback (an exception falls through)
    fx := fx ++ [.deviceMonkeyLaunch pkg]
    if !env.monkey_raises then
      if pyContains env.monkey_stdout "Events injected: 1" then
        return (true, fx ++ [.deviceSleep])
  -- verify by reading the current app
  fx := fx ++ [.deviceSleep]
  if pyContains (pyLower env.current_app_after_chrome) "chrome" then
    return (true, fx)
  return (false, fx)

/-- The control flow of `AndroidAgent._take_action`, translated arm by
arm.  Returns the reported success, the input-box coordinate recorded on
a successful input-field tap (`some c` exactly when the source sets
`self.last_input_tap_coords`/`input_box_tapped`), and the trace of device
interactions.  The SWIPE arm reads `action.start_coordinate`, an
attribute the `AndroidAction` dataclass does not define; the resulting
`AttributeError` is caught by the surrounding `except` handler, which
returns `False` — so that arm produces no device effect at all. -/
def take_action_core (action : AndroidAction) (pause : Bool)
    (env : TakeActionEnv) : Bool × Option Coordinate × List Effect := Id.run do
  let mut fx : List Effect := []
  let mut inputTap : Option Coordinate := none
  match action.action with
  | .TAP =>
    match action.coordinate with
    | none => return (false, inputTap, fx)
    | some c =>
      fx := fx ++ [.deviceTap c.x c.y]
      if env.tap_ok then
        if is_input_box c then
          inputTap := some c
        return (true, inputTap, fx)
      -- offset retry
      fx := fx ++ [.deviceTap (c.x.add 5) (c.y.add 5)]
      if env.tap_offset_ok then
        if is_input_box c then
          inputTap := some c
        return (true, inputTap, fx)
      return (false, inputTap, fx)
  | .TYPE =>
    match action.text with
    | none => return (false, inputTap, fx)
    | some tv =>
      if !tv.truthy then return (false, inputTap, fx)
      fx := fx ++ [.deviceType tv]
      return (true, inputTap, fx)
  | .SWIPE_UP =>
    fx := fx ++ [.deviceSwipeUp]
  | .SWIPE_DOWN =>
    fx := fx ++ [.deviceSwipeDown]
  | .SWIPE =>
    -- `action.start_coordinate` raises AttributeError; caught → False
    return (false, inputTap, fx)
  | .PRESS =>
    match action.key with
    | none => return (false, inputTap, fx)
    | some k =>
      if JVal.pyEq k (jint 4) then
        fx := fx ++ [.devicePressBack]
      else if JVal.pyEq k (jint 3) then
        fx := fx ++ [.devicePressHome]
      else
        fx := fx ++ [.deviceKeyEvent k]
        if !env.keyevent_ok then
          -- `subprocess.run(..., check=True)` raised; caught → False
          return (false, inputTap, fx)
  | .WAIT =>
    let d? : Option Frac :=
      match action.duration with
      | none => some 5
      | some (.num q _) => some q
      | some (.bool b) => some (Frac.ofInt (if b then 1 else 0))
      | some _ => none
    match d? with
    | none =>
      -- `duration < 5` on a non-number raises TypeError; caught → False
      return (false, inputTap, fx)
    | some _ =>
      fx := fx ++ [.deviceSleep]
  | .LAUNCH_APP =>
    match action.package with
    | none => return (false, inputTap, fx)
    | some p =>
      if !p.truthy then return (false, inputTap, fx)
      match p with
      | .str pkg =>
        if pyContains (pyLower pkg) "chrome" then
          let r := chrome_launch_strategies p action.activity pkg env
          return (r.1, inputTap, fx ++ r.2)
        else
          -- standard launch for non-Chrome apps
          fx := fx ++ [.deviceLaunch p action.activity]
          return (env.launch_results pkg, inputTap, fx)
      | _ =>
        -- `action.package.lower()` raises AttributeError; caught → False
        return (false, inputTap, fx)
  | _ =>
    -- SCREENSHOT / SUCCESS / FAILURE: "Unknown action type" → False
    return (false, inputTap, fx)
  -- common tail for the arms that fall through
  if pause then
    fx := fx ++ [.pauseForInput]
  return (true, inputTap, fx)

/-- `AndroidAgent._take_action`: the core control flow above together
with the mutations the method performs on `self` — the per-action-type
counter increment (lines 146-148, always reached inside the `try`), and,
on a successful tap classified as an input box, the recording of
`last_input_tap_coords` and of the tracker's `input_box_tapped` flag
(lines 166-181). -/
def AndroidAgent.take_action (ag : AndroidAgent) (action : AndroidAction)
    (env : TakeActionEnv) : Bool × AndroidAgent × List Effect :=
  let r := take_action_core action ag.pause_after_each_action env
  (r.1,
   { ag with
     action_counts := bumpCount ag.action_counts action.action
     last_input_tap_coords :=
       match r.2.1 with
       | some c => some c
       | none => ag.last_input_tap_coords
     state_tracker :=
       match r.2.1 with
       | some _ => { ag.state_tracker with input_box_tapped := true }
       | none => ag.state_tracker },
   r.2.2)

/-- The signature-building control flow of `AndroidAgent.get_state_hash`,
over the fields it reads and mutates (`home_screen_attempts` and
`last_actions`): builds the stall-signature string.  `randScroll` models
`random.randint(1, 3)`. -/
def get_state_hash_core (home0 : ℕ) (lastActions0 : List AndroidActionType)
    (history : List AndroidStep) (state : AndroidState) (randScroll : ℕ) :
    String × ℕ × List AndroidActionType := Id.run do
  let mut home := home0
  let mut lastActions := lastActions0
  let time_bucket : ℤ := pyInt ((Frac.ofInt state.timestamp).div 10) * 10
  let mut comps : List String :=
    ["app:" ++ state.current_app,
     "time:" ++ toString time_bucket,
     "dimensions:" ++ toString state.width ++ "x" ++ toString state.height]
  let appLower := pyLower state.current_app
  let is_home_or_unknown :=
    pyContains appLower "launcher" || state.current_app == "unknown" ||
      pyContains appLower "com.android.systemui"
  if is_home_or_unknown then
    home := home + 1
    comps := comps ++ ["home_attempt:" ++ toString (home % 5)]
  else
    home := 0
  -- scrolling tolerance
  match lastActions.getLast? with
  | some a =>
    if a = .SWIPE_UP ∨ a = .SWIPE_DOWN then
      comps := comps ++ ["scroll:" ++ toString randScroll]
  | none => pure ()
  -- store the last 3 actions (`history[-1].action.action` is an enum
  -- member, hence always truthy)
  match history.getLast? with
  | some st =>
    lastActions := lastActions ++ [st.action.action]
    if lastActions.length > 3 then
      lastActions := lastActions.drop 1
  | none => pure ()
  return (String.intercalate ":" comps, home, lastActions)

/-- `AndroidAgent.get_state_hash`: the core above together with the
mutations of `home_screen_attempts` and `last_actions` on `self`. -/
def AndroidAgent.get_state_hash (ag : AndroidAgent) (state : AndroidState)
    (randScroll : ℕ) : String × AndroidAgent :=
  let r := get_state_hash_core ag.home_screen_attempts ag.last_actions ag.history state randScroll
  (r.1, { ag with home_screen_attempts := r.2.1, last_actions := r.2.2 })

/-- The comparison logic of `AndroidAgent.detect_repeated_state` over the
fields it reads and mutates: returns whether the stall threshold was
reached, with the new `last_state_hash` and `repeated_states`. -/
def detect_repeated_state_core (lastHash : Option String) (repeated0 : ℕ)
    (maxRepeated : ℕ) (current_hash : String) (state : AndroidState) :
    Bool × Option String × ℕ := Id.run do
  let appLower := pyLower state.current_app
  let is_home_or_unknown :=
    pyContains appLower "launcher" || state.current_app == "unknown"
  let max_attempts :=
    if pyContains appLower "chrome" then maxRepeated * 3
    else if is_home_or_unknown then maxRepeated * 2
    else maxRepeated
  if lastHash = some current_hash then
    let repeated := repeated0 + 1
    if repeated ≥ max_attempts then
      return (true, lastHash, repeated)
    return (false, lastHash, repeated)
  else
    return (false, some current_hash, 0)

/-- `AndroidAgent.detect_repeated_state`: hash the state, compare with
the previous hash, and update the stall bookkeeping on `self`. -/
def AndroidAgent.detect_repeated_state (ag : AndroidAgent)
    (state : AndroidState) (randScroll : ℕ) : Bool × AndroidAgent :=
  let h := ag.get_state_hash state randScroll
  let r := detect_repeated_state_core h.2.last_state_hash h.2.repeated_states
    h.2.max_repeated_states h.1 state
  (r.1, { h.2 with last_state_hash := r.2.1, repeated_states := r.2.2 })

/-- The Chrome UI indicator substrings of `_check_for_chrome_ui`. -/
def chromeIndicators : List String :=
  ["chrome", "address bar", "url bar", "search bar", "google search",
   "google.com", "browser"]

/-- `AndroidAgent._check_for_chrome_ui`: the screenshot argument is
ignored by the source; the check reads `planner.last_observation` (an
attribute that may not exist, modelled as an `Option`) and the last
history entry. -/
def AndroidAgent.check_for_chrome_ui (ag : AndroidAgent)
    (plannerLastObservation : Option String) : Bool :=
  let fromObs :=
    match plannerLastObservation with
    | some obs => chromeIndicators.any fun ind => pyContains (pyLower obs) (pyLower ind)
    | none => false
  if fromObs then true
  else
    match ag.history.getLast? with
    | some st => pyContains (pyLower st.state.current_app) "chrome"
    | none => false

/-- The external inputs of one `AndroidAgent.step` call: the captured
device state, the keyboard query, the planner's reply, and the outcomes
of the recovery and Chrome-special device calls (an `Option Bool` of
`none` models the call raising). -/
structure StepEnv where
  captured_state : AndroidState
  keyboard_visible : Option Bool := some false
  rand_scroll : ℕ := 1
  planner_last_observation : Option String := none
  planner_action : Option AndroidAction := none
  recovery_chrome_direct_raises : Bool := false
  recovery_current_app : String := ""
  recovery_monkey_raises : Bool := false
  recovery_keyboard_visible : Option Bool := some false
  recovery_uiauto_ok : Option Bool := some false
  chrome_cmd_ok : Bool := false
  chrome_monkey_stdouts : String → String := fun _ => ""
  take_env : TakeActionEnv := {}

/-- The tap-loop recovery block of `AndroidAgent.step` (android_agent.py
lines 549-653), entered when a repeated state coincides with a trailing
run of taps: the Chrome-specific direct launches, the keyboard TYPE
recovery, the UIAutomator2 direct-input recovery, and the final
BACK-button recovery.  Every path records exactly one synthetic recovery
`AndroidStep` and returns; the goal status is never touched here. -/
def tap_loop_recovery (ag₀ : AndroidAgent) (current_state : AndroidState)
    (env : StepEnv) : AndroidAgent × List Effect := Id.run do
  let mut ag := ag₀
  let mut fx : List Effect := []
  let chrome_target :=
    pyContains (pyLower current_state.current_app) "chrome" ||
    ag.check_for_chrome_ui env.planner_last_observation ||
    (match ag.history.getLast? with
     | some st =>
       match st.action.coordinate with
       | some c => Frac.ltb 0.8 c.y
       | none => false
     | none => false)
  if chrome_target then
    -- go home, then `am start` Chrome directly
    fx := fx ++ [.devicePressHome, .deviceSleep, .deviceShellChromeLaunch]
    if !env.recovery_chrome_direct_raises then
      fx := fx ++ [.deviceSleep]
      if pyContains (pyLower env.recovery_current_app) "chrome" then
        let recovery_action : AndroidAction := { action := .PRESS, key := some (jint 3) }
        ag := { ag with history := ag.history ++ [{ state := current_state, action := recovery_action }] }
        return (ag, fx)
    -- monkey fallback: records a synthetic TAP step unless it raises
    fx := fx ++ [.deviceMonkeyLaunch "com.android.chrome"]
    if !env.recovery_monkey_raises then
      fx := fx ++ [.deviceSleep]
      let recovery_action : AndroidAction :=
        { action := .TAP, coordinate := some { x := 500, y := 500 },
          text := some (.str "Chrome launch via monkey") }
      ag := { ag with history := ag.history ++ [{ state := current_state, action := recovery_action }] }
      return (ag, fx)
  -- keyboard recovery (an exception in the query skips the block)
  if env.recovery_keyboard_visible = some true then
    let recovery_action : AndroidAction := { action := .TYPE, text := some (.str "search") }
    let r := ag.take_action recovery_action env.take_env
    ag := r.2.1
    fx := fx ++ r.2.2
    ag := { ag with history := ag.history ++ [{ state := current_state, action := recovery_action }] }
    return (ag, fx)
  -- UIAutomator2 direct-input recovery
  match ag.last_input_tap_coords with
  | some c =>
    if env.recovery_uiauto_ok = some true then
      fx := fx ++ [.deviceUiAutoType "search"]
      let recovery_action : AndroidAction := { action := .TYPE, text := some (.str "search") }
      ag := { ag with history := ag.history ++ [{ state := current_state, action := recovery_action }] }
      return (ag, fx)
    else
      if env.recovery_uiauto_ok ≠ none then
        fx := fx ++ [.deviceUiAutoType "search"]
      let _ := c
  | none => pure ()
  -- BACK-button recovery
  let recovery_action : AndroidAction := { action := .PRESS, key := some (jint 4) }
  let r := ag.take_action recovery_action env.take_env
  ag := r.2.1
  fx := fx ++ r.2.2
  ag := { ag with history := ag.history ++ [{ state := current_state, action := recovery_action }] }
  return (ag, fx)

/-- The Chrome-special launcher-dock tap path of `AndroidAgent.step`
(lines 710-763): the direct `am start` command, then the three
alternative-package monkey attempts.  The middle component is `true`
when one of the attempts succeeded, the step was recorded and `step`
returns; it is `false` (with the agent unchanged and the attempted
effects) when the path falls through to the standard tap. -/
def chrome_dock_tap_attempts (ag : AndroidAgent) (current_state : AndroidState)
    (next_action : AndroidAction) (env : StepEnv) :
    AndroidAgent × Bool × List Effect := Id.run do
  let mut fx : List Effect := [.deviceShellChromeLaunch]
  if env.chrome_cmd_ok then
    return ({ ag with history := ag.history ++ [{ state := current_state, action := next_action }] },
      true, fx ++ [.deviceSleep])
  fx := fx ++ [.deviceMonkeyLaunch "com.android.chrome"]
  if pyContains (env.chrome_monkey_stdouts "com.android.chrome") "Events injected: 1" then
    return ({ ag with history := ag.history ++ [{ state := current_state, action := next_action }] },
      true, fx ++ [.deviceSleep])
  fx := fx ++ [.deviceMonkeyLaunch "com.chrome.beta"]
  if pyContains (env.chrome_monkey_stdouts "com.chrome.beta") "Events injected: 1" then
    return ({ ag with history := ag.history ++ [{ state := current_state, action := next_action }] },
      true, fx ++ [.deviceSleep])
  fx := fx ++ [.deviceMonkeyLaunch "com.google.android.apps.chrome"]
  if pyContains (env.chrome_monkey_stdouts "com.google.android.apps.chrome") "Events injected: 1" then
    return ({ ag with history := ag.history ++ [{ state := current_state, action := next_action }] },
      true, fx ++ [.deviceSleep])
  return (ag, false, fx)

/-- `AndroidAgent.step`, translated control path by control path:
repeated-state detection, the tap-loop recovery block, the planner call,
terminal actions, the Chrome-special tap path, execution via
`_take_action`, history recording and the step-budget check. -/
def AndroidAgent.step (ag₀ : AndroidAgent) (env : StepEnv) :
    AndroidAgent × List Effect := Id.run do
  let current_state := env.captured_state
  -- Check for repeated states
  let dr := ag₀.detect_repeated_state current_state env.rand_scroll
  let repeated_state := dr.1
  let mut ag := dr.2
  let mut fx : List Effect := []
  let last_action_type : Option AndroidActionType :=
    ag.history.getLast?.map (·.action.action)
  -- Check keyboard state to update the state tracker
  match env.keyboard_visible with
  | some kb => ag := { ag with state_tracker := ag.state_tracker.set_keyboard_visible kb }
  | none => pure ()
  -- Tap-loop recovery block
  if repeated_state ∧ last_action_type = some .TAP ∧ ag.action_counts .TAP ≥ 3 then
    let r := tap_loop_recovery ag current_state env
    return (r.1, fx ++ r.2)
  -- save a screenshot when a directory is configured
  if ag.screenshot_dir_set then
    fx := fx ++ [.deviceScreenshot]
  -- planner call
  match env.planner_action with
  | none =>
    ag := { ag with status := .FAILED }
    return (ag, fx)
  | some next_action =>
    -- terminal actions
    if next_action.action = .SUCCESS then
      ag := { ag with status := .SUCCESS }
      return (ag, fx)
    if next_action.action = .FAILURE then
      ag := { ag with status := .FAILED }
      return (ag, fx)
    -- Chrome-special tap path (launcher dock taps only)
    if next_action.action = .TAP then
      let is_chrome_target :=
        pyContains (pyLower current_state.current_app) "launcher" &&
        (match next_action.coordinate with
         | some c => Frac.ltb 0.8 c.y
         | none => false)
      if is_chrome_target then
        let r := chrome_dock_tap_attempts ag current_state next_action env
        fx := fx ++ r.2.2
        if r.2.1 then
          return (r.1, fx)
        -- fall back to the standard tap below
    -- execute the action (no admission call happens anywhere in `step`)
    let r := ag.take_action next_action env.take_env
    ag := r.2.1
    fx := fx ++ r.2.2
    let next_action := if !r.1 then { next_action with failed := true } else next_action
    ag := { ag with history := ag.history ++ [{ state := current_state, action := next_action }] }
    -- step budget
    if ag.history.length ≥ ag.max_steps then
      ag := { ag with status := .FAILED }
    return (ag, fx)

/-- `AndroidAgent.start`: run `step` while the status is INITIAL or
RUNNING; the environment list supplies one entry per loop iteration, so
its length models the `step_count < max_steps` bound. -/
def AndroidAgent.start (ag : AndroidAgent) : List StepEnv → AndroidAgent
  | [] => ag
  | e :: es =>
    if ag.status = .INITIAL ∨ ag.status = .RUNNING then
      AndroidAgent.start (ag.step e).1 es
    else ag

/-! ## Definitions supporting the claim statements -/

/-- The disjunction of every free-text inference guard of
`_infer_action_from_text`, in source order: `infer_action_from_text`
returns the `Press(home)` default exactly when this is `false` on the
lowered text. -/
def anyInferRuleMatches (t : String) : Bool :=
  (phraseMatch t).isSome ||
  successWords.any (fun w => pyContains t w) ||
  failureWords.any (fun w => pyContains t w) ||
  hasWholeWordAlt homeWordAlts t ||
  hasWholeWordAlt backWordAlts t ||
  (typePatternExtract t).isSome ||
  (tapPatternExtract t).isSome ||
  (tapVerbs.any (fun w => pyContains t w) && (numPairExtract t).isSome) ||
  (swipePatternExtract t).isSome ||
  ["swipe up", "scroll up", "flick up"].any (fun w => pyContains t w) ||
  ["swipe down", "scroll down", "flick down"].any (fun w => pyContains t w) ||
  (launchPatternExtract t).isSome ||
  (finalTypeKeywords.any (fun w => pyContains t w) &&
    ((quotedExtract t).isSome || (typeKwSplitExtract t).isSome))

/-- Modelled from the spec (§3, GoalStatus invariant; claim C8): the set
of status transitions the spec permits — "transitions only
Initial→Running, Running→Running, Running→{Success,Failed}".  This
definition follows the spec's words and exists to be compared with the
transitions the code actually performs. -/
def specAllowedTransition (a b : AndroidGoalState) : Prop :=
  (a = .INITIAL ∧ b = .RUNNING) ∨
  (a = .RUNNING ∧ b = .RUNNING) ∨
  (a = .RUNNING ∧ (b = .SUCCESS ∨ b = .FAILED))

/-- The tracker state after `k` submissions of `Tap` at the coordinate
`c`, starting from a fresh tracker. -/
def tapStateAfter (c : Coordinate) : ℕ → AndroidStateTracker
  | 0 => AndroidStateTracker.initial
  | k + 1 => ((tapStateAfter c k).update_state .TAP (some c) none).2

/-- The admission result of the `(k+1)`-th consecutive `Tap` submission
at `c` from a fresh tracker. -/
def tapAdmitResult (c : Coordinate) (k : ℕ) : Bool :=
  ((tapStateAfter c k).update_state .TAP (some c) none).1

/-- The closed form of the tracker state after `k + 1` consecutive `Tap`
submissions at `c` from a fresh tracker: the same-location counter holds
`k`, the per-type count `k + 1`, and the input flags hold the
classification of `c`. -/
def tapSteadyState (c : Coordinate) (k : ℕ) : AndroidStateTracker :=
  { last_tap_position := some c
    last_action := some .TAP
    action_count := fun a => if a = .TAP then k + 1 else 0
    must_type_next := is_input_box c
    input_box_tapped := is_input_box c
    keyboard_visible := is_input_box c
    consecutive_same_tap_count := k
    last_tap_coords := some c
    last_tap_was_input := is_input_box c }

/-- A device state used by the concrete loop-controller scenarios. -/
def sampleState : AndroidState :=
  { screenshot := "", width := 1080, height := 1920,
    current_app := "com.example.app", timestamp := 100 }

/-- The `Tap(500, 500)` action returned by the planner in the concrete
scenarios. -/
def sampleTapAction : AndroidAction :=
  { action := .TAP, coordinate := some { x := 500, y := 500 } }

/-- A step environment in which the planner returns `Tap(500, 500)`; the
timestamp varies with `i` so that consecutive states hash differently
(no stall is detected). -/
def tapStepEnv (i : ℕ) : StepEnv :=
  { captured_state := { sampleState with timestamp := 100 * (i : ℤ) },
    planner_action := some sampleTapAction }

/-- The agent after `n` loop iterations in which the planner returns
`Tap(500, 500)` every time. -/
def tapRun : ℕ → AndroidAgent
  | 0 => AndroidAgent.initial
  | n + 1 => ((tapRun n).step (tapStepEnv n)).1

/-- A step environment in which the planner returns the `Success`
action. -/
def successStepEnv : StepEnv :=
  { captured_state := sampleState, planner_action := some { action := .SUCCESS } }

/-- A concrete `Swipe` action carrying its points in the `swipe` field
(the only representation `AndroidAction` defines for swipes). -/
def sampleSwipeAction : AndroidAction :=
  { action := .SWIPE,
    swipe := some { start := { x := 100, y := 800 }, end_ := { x := 100, y := 200 },
                    duration := jint 100 } }

/-- No effect of the trace is a submission to the State Tracker's
admission function. -/
def noAdmit (fx : List Effect) : Bool := fx.all fun e => !e.isAdmitCall

/-- `statusOk old new` holds when `new` is either the unchanged `old`
status or one of the two terminal statuses — the only status outcomes of
`AndroidAgent.step`. -/
def statusOk (old new : AndroidGoalState) : Bool :=
  (new == old) || (new == .SUCCESS) || (new == .FAILED)

/-- A structured tap payload with both coordinates fractional (in `[0, 1]`). -/
def tapFracPayload : String := "```json\n\x7b\"action\": \"tap\", \"x\": 0.5, \"y\": 0.5\x7d\n```"

/-- A structured tap payload with absolute integer pixel coordinates. -/
def tapAbsPayload : String := "```json\n\x7b\"action\": \"tap\", \"x\": 500, \"y\": 500\x7d\n```"

/-- A structured tap payload with absolute but non-integer coordinates
(outside `[0, 1]`, so the parser takes the pass-through branch). -/
def tapHalfPixelPayload : String := "```json\n\x7b\"action\": \"tap\", \"x\": 500.5, \"y\": 500.5\x7d\n```"

/-- A structured launch payload naming the app to launch. -/
def launchPayload : String := "```json\n\x7b\"action\": \"launch_app\", \"app\": \"Chrome\"\x7d\n```"

/-! ## Helper lemmas -/

theorem chrome_launch_noadmit (p : JVal) (act : Option JVal) (pkg : String)
    (env : TakeActionEnv) :
    noAdmit (chrome_launch_strategies p act pkg env).2 = true := by
  simp only [chrome_launch_strategies, Id.run, Id.bind_eq, Id.pure_eq, Id.map_eq]
  simp only [apply_ite (fun r : Bool × List Effect => noAdmit r.2)]
  simp only [noAdmit, List.all_append, List.all_cons, List.all_nil, Effect.isAdmitCall,
    Bool.not_false, Bool.and_self, Bool.and_true, Bool.true_and, ite_self]

set_option maxHeartbeats 1000000 in
theorem take_action_core_noadmit (a : AndroidAction) (pause : Bool) (env : TakeActionEnv) :
    noAdmit (take_action_core a pause env).2.2 = true := by
  simp only [take_action_core, Id.run, Id.bind_eq, Id.pure_eq, Id.map_eq]
  cases a.action <;> dsimp only
  case TAP =>
    cases a.coordinate <;> dsimp only
    · rfl
    · simp only [apply_ite (fun r : Bool × Option Coordinate × List Effect => noAdmit r.2.2)]
      simp only [noAdmit, List.all_append, List.all_cons, List.all_nil, List.nil_append,
        Effect.isAdmitCall, Bool.not_false, Bool.and_self, Bool.and_true, Bool.true_and, ite_self]
  case TYPE =>
    cases a.text <;> dsimp only
    · rfl
    · simp only [apply_ite (fun r : Bool × Option Coordinate × List Effect => noAdmit r.2.2)]
      simp only [noAdmit, List.all_append, List.all_cons, List.all_nil, List.nil_append,
        Effect.isAdmitCall, Bool.not_false, Bool.and_self, Bool.and_true, Bool.true_and, ite_self]
  case PRESS =>
    cases a.key <;> dsimp only
    · rfl
    · simp only [apply_ite (fun r : Bool × Option Coordinate × List Effect => noAdmit r.2.2)]
      simp only [noAdmit, List.all_append, List.all_cons, List.all_nil, List.nil_append,
        Effect.isAdmitCall, Bool.not_false, Bool.and_self, Bool.and_true, Bool.true_and, ite_self]
  case WAIT =>
    rcases a.duration with _ | v
    · dsimp only
      simp only [apply_ite (fun r : Bool × Option Coordinate × List Effect => noAdmit r.2.2)]
      simp only [noAdmit, List.all_append, List.all_cons, List.all_nil, List.nil_append,
        Effect.isAdmitCall, Bool.not_false, Bool.and_self, Bool.and_true, Bool.true_and, ite_self]
    · cases v <;> dsimp only <;>
        (try simp only [apply_ite (fun r : Bool × Option Coordinate × List Effect => noAdmit r.2.2)]) <;>
        (first
          | rfl
          | simp only [noAdmit, List.all_append, List.all_cons, List.all_nil, List.nil_append,
              Effect.isAdmitCall, Bool.not_false, Bool.and_self, Bool.and_true, Bool.true_and, ite_self])
  case LAUNCH_APP =>
    rcases a.package with _ | v
    · rfl
    · cases v <;> dsimp only
      case str s =>
        simp only [apply_ite (fun r : Bool × Option Coordinate × List Effect => noAdmit r.2.2)]
        simp only [List.nil_append, chrome_launch_noadmit]
        simp only [noAdmit, List.all_append, List.all_cons, List.all_nil,
          Effect.isAdmitCall, Bool.not_false, Bool.and_self, Bool.and_true, Bool.true_and, ite_self]
      all_goals
        try simp only [apply_ite (fun r : Bool × Option Coordinate × List Effect => noAdmit r.2.2)]
      all_goals
        first
          | rfl
          | simp only [noAdmit, List.all_append, List.all_cons, List.all_nil, List.nil_append,
              Effect.isAdmitCall, Bool.not_false, Bool.and_self, Bool.and_true, Bool.true_and, ite_self]
  all_goals
    try simp only [apply_ite (fun r : Bool × Option Coordinate × List Effect => noAdmit r.2.2)]
  all_goals
    first
      | rfl
      | simp only [noAdmit, List.all_append, List.all_cons, List.all_nil, List.nil_append,
          Effect.isAdmitCall, Bool.not_false, Bool.and_self, Bool.and_true, Bool.true_and, ite_self]

theorem take_action_status (ag : AndroidAgent) (a : AndroidAction) (env : TakeActionEnv) :
    (ag.take_action a env).2.1.status = ag.status := rfl

theorem take_action_noadmit (ag : AndroidAgent) (a : AndroidAction) (env : TakeActionEnv) :
    noAdmit (ag.take_action a env).2.2 = true :=
  take_action_core_noadmit a ag.pause_after_each_action env

theorem take_action_counts (ag : AndroidAgent) (a : AndroidAction) (env : TakeActionEnv) :
    (ag.take_action a env).2.1.action_counts a.action = ag.action_counts a.action + 1 := by
  simp [AndroidAgent.take_action, bumpCount]

theorem noAdmit_append (a b : List Effect) : noAdmit (a ++ b) = (noAdmit a && noAdmit b) := by
  simp [noAdmit, List.all_append]

theorem noAdmit_cons (e : Effect) (l : List Effect) :
    noAdmit (e :: l) = (!e.isAdmitCall && noAdmit l) := by
  simp [noAdmit]

theorem noAdmit_nil : noAdmit [] = true := rfl

theorem detect_status (ag : AndroidAgent) (s : AndroidState) (r : ℕ) :
    (ag.detect_repeated_state s r).2.status = ag.status := rfl

set_option maxHeartbeats 1000000 in
theorem recovery_status (ag : AndroidAgent) (cs : AndroidState) (env : StepEnv) :
    (tap_loop_recovery ag cs env).1.status = ag.status := by
  simp only [tap_loop_recovery, Id.run, Id.bind_eq, Id.pure_eq, Id.map_eq]
  cases h : ag.last_input_tap_coords <;>
    simp only [apply_ite (fun r : AndroidAgent × List Effect => r.1.status)] <;>
    simp only [take_action_status, ite_self]

set_option maxHeartbeats 1000000 in
theorem recovery_noadmit (ag : AndroidAgent) (cs : AndroidState) (env : StepEnv) :
    noAdmit (tap_loop_recovery ag cs env).2 = true := by
  simp only [tap_loop_recovery, Id.run, Id.bind_eq, Id.pure_eq, Id.map_eq]
  cases h : ag.last_input_tap_coords <;>
    simp only [apply_ite (fun r : AndroidAgent × List Effect => noAdmit r.2)] <;>
    simp only [noAdmit_append, noAdmit_cons, noAdmit_nil, take_action_noadmit, List.nil_append,
      Effect.isAdmitCall, Bool.not_false, Bool.and_true, Bool.true_and, Bool.and_self, ite_self]

theorem dock_status (ag : AndroidAgent) (cs : AndroidState) (na : AndroidAction)
    (env : StepEnv) : (chrome_dock_tap_attempts ag cs na env).1.status = ag.status := by
  simp only [chrome_dock_tap_attempts, Id.run, Id.bind_eq, Id.pure_eq, Id.map_eq]
  simp only [apply_ite (fun r : AndroidAgent × Bool × List Effect => r.1.status)]
  simp only [ite_self]

theorem dock_noadmit (ag : AndroidAgent) (cs : AndroidState) (na : AndroidAction)
    (env : StepEnv) : noAdmit (chrome_dock_tap_attempts ag cs na env).2.2 = true := by
  simp only [chrome_dock_tap_attempts, Id.run, Id.bind_eq, Id.pure_eq, Id.map_eq]
  simp only [apply_ite (fun r : AndroidAgent × Bool × List Effect => noAdmit r.2.2)]
  simp only [noAdmit_append, noAdmit_cons, noAdmit_nil, Effect.isAdmitCall,
    Bool.not_false, Bool.and_true, Bool.true_and, Bool.and_self, ite_self]

theorem statusOk_refl (a : AndroidGoalState) : statusOk a a = true := by
  cases a <;> rfl

theorem statusOk_success (a : AndroidGoalState) : statusOk a .SUCCESS = true := by
  cases a <;> rfl

theorem statusOk_failed (a : AndroidGoalState) : statusOk a .FAILED = true := by
  cases a <;> rfl

theorem statusOk_elim {a b : AndroidGoalState} (h : statusOk a b = true) :
    b = a ∨ b = .SUCCESS ∨ b = .FAILED := by
  cases a <;> cases b <;> simp_all [statusOk]

set_option maxHeartbeats 4000000 in
theorem step_statusOk (ag : AndroidAgent) (env : StepEnv) :
    statusOk ag.status (ag.step env).1.status = true := by
  obtain ⟨cs, kb, rsc, plo, pa, c1, c2, c3, rk, ru, cc, cm, te⟩ := env
  simp only [AndroidAgent.step, Id.run, Id.bind_eq, Id.pure_eq, Id.map_eq]
  cases kb <;> cases pa <;>
    simp only [apply_ite (fun r : AndroidAgent × List Effect => statusOk ag.status r.1.status)] <;>
    simp only [recovery_status, dock_status, take_action_status, detect_status,
      statusOk_refl, statusOk_success, statusOk_failed, ite_self]

theorem coord_pyEqb_self (c : Coordinate) : Coordinate.pyEqb c c = true := by
  simp [Coordinate.pyEqb, Frac.eqb]

set_option maxHeartbeats 1600000 in
theorem tapStateAfter_succ (c : Coordinate) : ∀ k, tapStateAfter c (k + 1) = tapSteadyState c k := by
  intro k
  induction k with
  | zero =>
    show ((AndroidStateTracker.initial).update_state .TAP (some c) none).2 = tapSteadyState c 0
    cases hb : is_input_box c <;>
      simp only [AndroidStateTracker.update_state, AndroidStateTracker.initial, tapSteadyState,
        Id.run, Id.bind_eq, Id.pure_eq, Id.map_eq, optCoordPyEqb, hb, reduceCtorEq, reduceIte,
        Option.isSome_some, and_true, true_and, not_true, not_false_eq_true, ite_true, ite_false,
        Bool.or_self, Bool.or_false, Bool.false_or, ne_eq, if_true, if_false]
  | succ j ih =>
    show ((tapStateAfter c (j + 1)).update_state .TAP (some c) none).2 = tapSteadyState c (j + 1)
    rw [ih]
    cases hb : is_input_box c <;>
      simp only [AndroidStateTracker.update_state, tapSteadyState, Id.run, Id.bind_eq,
        Id.pure_eq, Id.map_eq, optCoordPyEqb, coord_pyEqb_self, hb, reduceCtorEq, reduceIte,
        Option.isSome_some, and_true, true_and, not_true, not_false_eq_true, ite_true, ite_false,
        Bool.or_self, Bool.or_false, Bool.false_or, ne_eq, if_true, if_false] <;>
      simp only [apply_ite (fun r : Bool × AndroidStateTracker => r.2)] <;>
      split_ifs <;>
      first
        | omega
        | (simp only [AndroidStateTracker.mk.injEq]
           all_goals refine ⟨rfl, rfl, funext fun a => ?_, rfl, rfl, rfl, rfl, rfl, rfl, rfl, rfl, rfl⟩
           all_goals (cases a <;> simp))

set_option maxHeartbeats 1600000 in
theorem tapAdmitResult_eq (c : Coordinate) (k : ℕ) : tapAdmitResult c k = decide (k ≤ 8) := by
  cases k with
  | zero =>
    show ((AndroidStateTracker.initial).update_state .TAP (some c) none).1 = _
    cases hb : is_input_box c <;>
      simp only [AndroidStateTracker.update_state, AndroidStateTracker.initial,
        Id.run, Id.bind_eq, Id.pure_eq, Id.map_eq, optCoordPyEqb, hb, reduceCtorEq, reduceIte,
        Option.isSome_some, and_true, true_and, not_true, not_false_eq_true, ite_true, ite_false,
        Bool.or_self, Bool.or_false, Bool.false_or, ne_eq, if_true, if_false] <;>
      decide
  | succ j =>
    show ((tapStateAfter c (j + 1)).update_state .TAP (some c) none).1 = _
    rw [tapStateAfter_succ]
    cases hb : is_input_box c <;>
      simp only [AndroidStateTracker.update_state, tapSteadyState, Id.run, Id.bind_eq,
        Id.pure_eq, Id.map_eq, optCoordPyEqb, coord_pyEqb_self, hb, reduceCtorEq, reduceIte,
        Option.isSome_some, and_true, true_and, not_true, not_false_eq_true, ite_true, ite_false,
        Bool.or_self, Bool.or_false, Bool.false_or, ne_eq, if_true, if_false] <;>
      simp only [apply_ite (fun r : Bool × AndroidStateTracker => r.1)] <;>
      split_ifs <;>
      first
        | rfl
        | omega
        | (simp_all
           try omega)

set_option maxHeartbeats 4000000 in
theorem step_noadmit (ag : AndroidAgent) (env : StepEnv) :
    noAdmit (ag.step env).2 = true := by
  obtain ⟨cs, kb, rsc, plo, pa, c1, c2, c3, rk, ru, cc, cm, te⟩ := env
  simp only [AndroidAgent.step, Id.run, Id.bind_eq, Id.pure_eq, Id.map_eq]
  cases kb <;> cases pa <;>
    simp only [apply_ite (fun r : AndroidAgent × List Effect => noAdmit r.2)] <;>
    simp only [noAdmit_append, noAdmit_cons, noAdmit_nil, recovery_noadmit, dock_noadmit,
      take_action_noadmit, List.nil_append, Effect.isAdmitCall, Bool.not_false,
      Bool.and_true, Bool.true_and, Bool.and_self, ite_self]

set_option maxHeartbeats 1600000 in
theorem infer_package_none (raw : String) : (infer_action_from_text raw).package = none := by
  unfold infer_action_from_text
  simp only [Id.run, Id.bind_eq, Id.pure_eq, Id.map_eq]
  repeat' split
  all_goals (try rfl)


theorem tap_branch_package_none (obj : List (String × JVal)) (fb : AndroidAction)
    (hfb : fb.package = none) : (parse_tap_branch obj fb).package = none := by
  unfold parse_tap_branch
  repeat' first
    | split
    | dsimp only []
  all_goals first | rfl | exact hfb

theorem type_branch_package_none (obj : List (String × JVal)) (fb : AndroidAction)
    (hfb : fb.package = none) : (parse_type_branch obj fb).package = none := by
  unfold parse_type_branch
  repeat' first
    | split
    | dsimp only []
  all_goals first | rfl | exact hfb

theorem press_branch_package_none (atype : String) (obj : List (String × JVal))
    (fb : AndroidAction) (hfb : fb.package = none) :
    (parse_press_branch atype obj fb).package = none := by
  unfold parse_press_branch
  repeat' first
    | split
    | dsimp only []
  all_goals first | rfl | exact hfb

theorem swipe_branch_package_none (obj : List (String × JVal)) (fb : AndroidAction)
    (hfb : fb.package = none) : (parse_swipe_branch obj fb).package = none := by
  unfold parse_swipe_branch
  repeat' first
    | split
    | dsimp only []
  all_goals first | rfl | exact hfb

theorem launch_branch_package_none (obj : List (String × JVal)) (fb : AndroidAction)
    (hfb : fb.package = none) : (parse_launch_branch obj fb).package = none := by
  unfold parse_launch_branch
  repeat' first
    | split
    | dsimp only []
  all_goals first | rfl | exact hfb

set_option maxHeartbeats 1600000 in
theorem parse_structured_package_none (fields : List (String × JVal)) (raw : String) :
    (parse_structured fields raw).package = none := by
  unfold parse_structured
  repeat' first
    | split
    | dsimp only []
  all_goals
    first
      | rfl
      | exact infer_package_none raw
      | exact tap_branch_package_none _ _ (infer_package_none raw)
      | exact type_branch_package_none _ _ (infer_package_none raw)
      | exact press_branch_package_none _ _ _ (infer_package_none raw)
      | exact swipe_branch_package_none _ _ (infer_package_none raw)
      | exact launch_branch_package_none _ _ (infer_package_none raw)

theorem parse_package_none (s : String) : (parse_action_response s).package = none := by
  cases h : find_code_block s with
  | none => simp only [parse_action_response, h]; exact infer_package_none s
  | some jtext =>
    cases hj : json_loads jtext with
    | none => simp only [parse_action_response, h, hj]; exact infer_package_none s
    | some v =>
      cases v with
      | obj fields =>
        simp only [parse_action_response, h, hj]
        exact parse_structured_package_none fields s
      | null => simp only [parse_action_response, h, hj]; exact infer_package_none s
      | bool b => simp only [parse_action_response, h, hj]; exact infer_package_none s
      | num q b => simp only [parse_action_response, h, hj]; exact infer_package_none s
      | str t => simp only [parse_action_response, h, hj]; exact infer_package_none s
      | arr xs => simp only [parse_action_response, h, hj]; exact infer_package_none s

theorem isSome_false_eq_none {α : Type} {o : Option α} (h : o.isSome = false) : o = none := by
  cases o <;> simp_all

set_option maxHeartbeats 1600000 in
theorem infer_default (raw : String)
    (h : anyInferRuleMatches (pyLower raw) = false) :
    infer_action_from_text raw = { action := .PRESS, key := some (jint 3) } := by
  simp only [anyInferRuleMatches, Bool.or_eq_false_iff] at h
  obtain ⟨⟨⟨⟨⟨⟨⟨⟨⟨⟨⟨⟨h1, h2⟩, h3⟩, h4⟩, h5⟩, h6⟩, h7⟩, h8⟩, h9⟩, h10⟩, h11⟩, h12⟩, h13⟩ := h
  have e1 := isSome_false_eq_none h1
  have e6 := isSome_false_eq_none h6
  have e7 := isSome_false_eq_none h7
  have e9 := isSome_false_eq_none h9
  have e12 := isSome_false_eq_none h12
  have h8' : tapVerbs.any (fun w => pyContains (pyLower raw) w) = false ∨
      numPairExtract (pyLower raw) = none := by
    by_cases hk : tapVerbs.any (fun w => pyContains (pyLower raw) w) = true
    · rw [hk, Bool.true_and] at h8
      exact Or.inr (isSome_false_eq_none h8)
    · rw [Bool.not_eq_true] at hk
      exact Or.inl hk
  have h13' : finalTypeKeywords.any (fun w => pyContains (pyLower raw) w) = false ∨
      (quotedExtract (pyLower raw) = none ∧ typeKwSplitExtract (pyLower raw) = none) := by
    by_cases hk : finalTypeKeywords.any (fun w => pyContains (pyLower raw) w) = true
    · rw [hk, Bool.true_and, Bool.or_eq_false_iff] at h13
      exact Or.inr ⟨isSome_false_eq_none h13.1, isSome_false_eq_none h13.2⟩
    · rw [Bool.not_eq_true] at hk
      exact Or.inl hk
  unfold infer_action_from_text
  simp only [Id.run, Id.bind_eq, Id.pure_eq, Id.map_eq]
  rcases h8' with h8' | h8' <;> rcases h13' with h13' | h13'
  · simp only [e1, e6, e7, e9, e12, h2, h3, h4, h5, h10, h11, h8', h13', Bool.false_eq_true,
      if_false, ite_false, reduceIte, ite_self]
  · simp only [e1, e6, e7, e9, e12, h2, h3, h4, h5, h10, h11, h8', h13'.1, h13'.2,
      Bool.false_eq_true, if_false, ite_false, reduceIte, ite_self]
  · simp only [e1, e6, e7, e9, e12, h2, h3, h4, h5, h10, h11, h8', h13', Bool.false_eq_true,
      if_false, ite_false, reduceIte, ite_self]
  · simp only [e1, e6, e7, e9, e12, h2, h3, h4, h5, h10, h11, h8', h13'.1, h13'.2,
      Bool.false_eq_true, if_false, ite_false, reduceIte, ite_self]

theorem take_action_swipe (ag : AndroidAgent) (a : AndroidAction) (env : TakeActionEnv)
    (h : a.action = .SWIPE) :
    (ag.take_action a env).1 = false ∧ (ag.take_action a env).2.2 = [] := by
  unfold AndroidAgent.take_action take_action_core
  simp only [Id.run, Id.bind_eq, Id.pure_eq, Id.map_eq, h]
  constructor <;> first | trivial | rfl

theorem take_action_launch_no_package (ag : AndroidAgent) (a : AndroidAction)
    (env : TakeActionEnv) (h : a.action = .LAUNCH_APP) (hp : a.package = none) :
    (ag.take_action a env).1 = false ∧ (ag.take_action a env).2.2 = [] := by
  unfold AndroidAgent.take_action take_action_core
  simp only [Id.run, Id.bind_eq, Id.pure_eq, Id.map_eq, h, hp]
  constructor <;> first | trivial | rfl

theorem genericBands_of_known (x y : Frac)
    (hicon : (app_icon_regions.any fun r => regionContains r x y) = false)
    (hknown : knownInputRegionHit x y = true) :
    (Frac.leb 0.05 y && Frac.leb y 0.2 && Frac.leb 0.05 x && Frac.leb x 0.95) = true ∨
    (Frac.leb 0.15 y && Frac.leb y 0.85 && Frac.leb 0.05 x && Frac.leb x 0.95) = true := by
  simp only [app_icon_regions, knownInputRegionHit, known_input_regions, regionContains,
    List.any_cons, List.any_nil, Bool.or_eq_false_iff, Bool.and_eq_false_iff,
    Bool.or_false, Bool.false_or,
    Bool.and_eq_true, Bool.or_eq_true, Frac.leb, decide_eq_true_eq,
    decide_eq_false_iff_not,
    show (0.03 : Frac).num = 3 from rfl,
    show (0.03 : Frac).den = 100 from rfl,
    show (0.05 : Frac).num = 5 from rfl,
    show (0.05 : Frac).den = 100 from rfl,
    show (0.08 : Frac).num = 8 from rfl,
    show (0.08 : Frac).den = 100 from rfl,
    show (0.1 : Frac).num = 1 from rfl,
    show (0.1 : Frac).den = 10 from rfl,
    show (0.15 : Frac).num = 15 from rfl,
    show (0.15 : Frac).den = 100 from rfl,
    show (0.2 : Frac).num = 2 from rfl,
    show (0.2 : Frac).den = 10 from rfl,
    show (0.3 : Frac).num = 3 from rfl,
    show (0.3 : Frac).den = 10 from rfl,
    show (0.4 : Frac).num = 4 from rfl,
    show (0.4 : Frac).den = 10 from rfl,
    show (0.6 : Frac).num = 6 from rfl,
    show (0.6 : Frac).den = 10 from rfl,
    show (0.75 : Frac).num = 75 from rfl,
    show (0.75 : Frac).den = 100 from rfl,
    show (0.8 : Frac).num = 8 from rfl,
    show (0.8 : Frac).den = 10 from rfl,
    show (0.85 : Frac).num = 85 from rfl,
    show (0.85 : Frac).den = 100 from rfl,
    show (0.9 : Frac).num = 9 from rfl,
    show (0.9 : Frac).den = 10 from rfl,
    show (0.95 : Frac).num = 95 from rfl,
    show (0.95 : Frac).den = 100 from rfl,
    show (0 : Frac).num = 0 from rfl,
    show (0 : Frac).den = 1 from rfl,
    show (1 : Frac).num = 1 from rfl,
    show (1 : Frac).den = 1 from rfl] at hicon hknown ⊢
  omega

/-! ## The claims -/

/-- Claim C1 (corrected) — counterexample to the original claim: in a
concrete cycle the planner returns `Tap(500, 500)` (neither Success nor
Failure), the Loop Controller executes the tap on the device, and the
cycle's interaction trace contains no submission to the State Tracker's
admission function at all: `step` never calls `update_state`, so no
veto-based failed-step path exists. -/
theorem claim_C1_counterexample :
    ((AndroidAgent.initial.step (tapStepEnv 0)).2.any Effect.isDeviceTap) = true ∧
    noAdmit (AndroidAgent.initial.step (tapStepEnv 0)).2 = true := by decide

/-- Claim C1 (corrected, amended property): the Loop Controller never
submits any action to the State Tracker's admission function — for every
agent state and every environment, the interaction trace of `step`
contains no admission call; planner actions are executed directly. -/
theorem claim_C1 (ag : AndroidAgent) (env : StepEnv) :
    noAdmit (ag.step env).2 = true :=
  step_noadmit ag env

/-- Claim C2 (corrected) — counterexample to the original claim: with the
planner returning `Tap(500, 500)` every cycle, after the 6th request the
per-type counter holds 6 yet the run status is still `INITIAL` (not
`Failed`), and the 6th tap was executed on the device — no per-type
ceiling exists anywhere in the code. -/
theorem claim_C2_counterexample :
    (tapRun 6).status = .INITIAL ∧
    (tapRun 6).action_counts .TAP = 6 ∧
    ((tapRun 5).step (tapStepEnv 5)).2.any Effect.isDeviceTap = true := by decide

/-- Claim C2 (corrected, amended property): `_take_action` increments the
per-action-type counter on every call, and the counter never influences
the run status — `_take_action` leaves `status` unchanged no matter how
large the count grows. -/
theorem claim_C2 (ag : AndroidAgent) (a : AndroidAction) (env : TakeActionEnv) :
    (ag.take_action a env).2.1.action_counts a.action = ag.action_counts a.action + 1 ∧
    (ag.take_action a env).2.1.status = ag.status :=
  ⟨take_action_counts ag a env, take_action_status ag a env⟩

/-- Claim C3 (confirmed): for every coordinate `c`, after `k + 1`
consecutive `Tap` submissions at `c` the same-location counter holds `k`
(one increment per repeat), and the submission made with `k` previous
identical taps is admitted exactly when the incremented counter stays at
or below the hard threshold 8 — so repeats with the counter in 6..8
(above the soft threshold 5) are still admitted, and the 9th consecutive
repeat (counter 9) is vetoed. -/
theorem claim_C3 (c : Coordinate) (k : ℕ) :
    (tapStateAfter c (k + 1)).consecutive_same_tap_count = k ∧
    tapAdmitResult c k = decide (k ≤ 8) := by
  refine ⟨?_, tapAdmitResult_eq c k⟩
  rw [tapStateAfter_succ]
  rfl

/-- Claim C4 (confirmed): `parse_action_response` is a total function of
the reply text (every raising access of the source is caught and falls
back to free-text inference, which ends in a default), and on a reply
with no payload block and no matching free-text rule it returns
`Press(home)` — the `PRESS` action with key code 3. -/
theorem claim_C4 (s : String) (hb : find_code_block s = none)
    (hr : anyInferRuleMatches (pyLower s) = false) :
    parse_action_response s = { action := .PRESS, key := some (jint 3) } := by
  simp only [parse_action_response, hb]
  exact infer_default s hr

/-- Witness for C4: the reply `"zqx"` has no payload block and matches no
free-text rule, and parses to `Press(home)`. -/
theorem claim_C4_witness :
    find_code_block "zqx" = none ∧ anyInferRuleMatches (pyLower "zqx") = false ∧
    parse_action_response "zqx" = { action := .PRESS, key := some (jint 3) } :=
  ⟨by decide, by decide, claim_C4 "zqx" (by decide) (by decide)⟩

/-- Claim C5 (corrected) — counterexample to the original claim: the
payload `x: 500.5, y: 500.5` has both components outside `[0, 1]`, and
the original claim says such components are "passed through unchanged";
the parser in fact truncates them with `int()`, producing `Tap(500, 500)`
— and `500.5 ≠ 500` as Python numbers. -/
theorem claim_C5_counterexample :
    parse_action_response tapHalfPixelPayload =
      { action := .TAP, coordinate := some { x := 500, y := 500 } } ∧
    Frac.eqb 500.5 500 = false :=
  ⟨by rfl, by decide⟩

/-- Claim C5 (corrected, amended property): a coordinate pair with both
components in `[0, 1]` is scaled by 1000 and truncated to `int` (the
payload `x: 0.5, y: 0.5` parses to `Tap(500, 500)`); a pair with a
component outside `[0, 1]` is truncated to `int` toward zero — so
already-absolute integer pixel pairs pass through unchanged (`x: 500,
y: 500` parses to `Tap(500, 500)`), but non-integer absolute values are
changed by the truncation. -/
theorem claim_C5 (n m : ℤ)
    (h : (Frac.leb 0 (Frac.ofInt n) && Frac.leb (Frac.ofInt n) 1 &&
          Frac.leb 0 (Frac.ofInt m) && Frac.leb (Frac.ofInt m) 1) = false) :
    normalize_tap_coordinates (Frac.ofInt n) (Frac.ofInt m) =
      { x := Frac.ofInt n, y := Frac.ofInt m } ∧
    parse_action_response tapFracPayload =
      { action := .TAP, coordinate := some { x := 500, y := 500 } } ∧
    parse_action_response tapAbsPayload =
      { action := .TAP, coordinate := some { x := 500, y := 500 } } := by
  refine ⟨?_, by rfl, by rfl⟩
  unfold normalize_tap_coordinates
  rw [h, if_neg (by decide)]
  simp [pyInt, Frac.ofInt, Int.tdiv_one]

/-- Witness for C5: at the absolute integer pair `(500, 500)` the
in-`[0,1]` test is false and the pair passes through unchanged. -/
theorem claim_C5_witness :
    (Frac.leb 0 (Frac.ofInt 500) && Frac.leb (Frac.ofInt 500) 1 &&
     Frac.leb 0 (Frac.ofInt 500) && Frac.leb (Frac.ofInt 500) 1) = false ∧
    normalize_tap_coordinates (Frac.ofInt 500) (Frac.ofInt 500) =
      { x := Frac.ofInt 500, y := Frac.ofInt 500 } :=
  ⟨by decide, (claim_C5 500 500 (by decide)).1⟩

/-- Claim C6 (corrected) — counterexample to the original claim: the
point `(0.5, 0.25)` lies in an input region registered for
`com.android.chrome` only; with foreground app `com.android.messaging`
the spec's per-app check (`perAppKnownInputRegionHit`, modelled from the
spec's words) returns false, yet the code's known-region step — which
scans every app's entries and receives no foreground app id at all —
fires, and `_is_input_box` classifies the point as input-capable. -/
theorem claim_C6_counterexample :
    knownInputRegionHit 0.5 0.25 = true ∧
    perAppKnownInputRegionHit "com.android.messaging" 0.5 0.25 = false ∧
    is_input_box { x := 0.5, y := 0.25 } = true := by decide

/-- Claim C6 (corrected, amended property): `_is_input_box` consults no
foreground app id — and in fact the whole known-input-region table is
redundant: deleting the table lookup (state_tracker.py lines 177-183)
never changes the classification, because every tabled point that
survives the app-icon filter already lies in the generic detection
bands. -/
theorem claim_C6 (c : Coordinate) : is_input_box c = is_input_box_noTable c := by
  cases c with
  | mk cx cy =>
    unfold is_input_box is_input_box_noTable
    dsimp only
    generalize (if Frac.ltb 1 cx then cx.div 1000 else cx) = x
    generalize (if Frac.ltb 1 cy then cy.div 1000 else cy) = y
    by_cases hicon : (app_icon_regions.any fun r => regionContains r x y) = true
    · simp [hicon]
    · rw [Bool.not_eq_true] at hicon
      by_cases hknown : knownInputRegionHit x y = true
      · rcases genericBands_of_known x y hicon hknown with hb | hb
        · simp [hicon, hknown, hb]
        · simp [hicon, hknown, hb]
      · rw [Bool.not_eq_true] at hknown
        simp [hicon, hknown]

/-- Claim C7 (code bug): a `Type` submission to `update_state` is always
admitted (here from the unconditional branch: `input_box_tapped` is set),
but the promised reset of `inputBoxTapped`/`mustTypeNext` never happens —
the `elif action == TYPE` reset block (state_tracker.py lines 133-136) is
dead code, because every `TYPE` submission returns from the early block
at lines 68-84 before reaching it. -/
theorem claim_C7 :
    (({ input_box_tapped := true, must_type_next := true } :
        AndroidStateTracker).update_state .TYPE none none).1 = true ∧
    (({ input_box_tapped := true, must_type_next := true } :
        AndroidStateTracker).update_state .TYPE none none).2.input_box_tapped = true ∧
    (({ input_box_tapped := true, must_type_next := true } :
        AndroidStateTracker).update_state .TYPE none none).2.must_type_next = true := by
  decide

/-- Claim C8 (corrected) — counterexample to the original claim: a step
on a fresh agent (status `Initial`) with the planner replying `Success`
sets the status directly to `Success`, a transition the spec's list
(`specAllowedTransition`, modelled from the spec's words) does not
permit — `Running` is never assigned anywhere. -/
theorem claim_C8_counterexample :
    AndroidAgent.initial.status = .INITIAL ∧
    (AndroidAgent.initial.step successStepEnv).1.status = .SUCCESS ∧
    ¬ specAllowedTransition .INITIAL .SUCCESS := by
  refine ⟨rfl, by decide, fun h => ?_⟩
  rcases h with ⟨_, h2⟩ | ⟨h1, _⟩ | ⟨h1, _⟩
  · cases h2
  · cases h1
  · cases h1

/-- Claim C8 (corrected, amended property): each `step` either preserves
the status or sets it to `Success`/`Failed` (`Running` is never
assigned), and the `start` loop never steps an agent whose status is
terminal — so terminal states are final within a run. -/
theorem claim_C8 :
    (∀ (ag : AndroidAgent) (env : StepEnv),
      (ag.step env).1.status = ag.status ∨ (ag.step env).1.status = .SUCCESS ∨
      (ag.step env).1.status = .FAILED) ∧
    (∀ (ag : AndroidAgent) (es : List StepEnv),
      ag.status = .SUCCESS ∨ ag.status = .FAILED → ag.start es = ag) := by
  constructor
  · intro ag env
    exact statusOk_elim (step_statusOk ag env)
  · intro ag es h
    cases es with
    | nil => rfl
    | cons e es =>
      rcases h with h | h <;> simp [AndroidAgent.start, h]

/-- Witness for C8: an agent whose status is `Success` is returned
unchanged by `start`. -/
theorem claim_C8_witness :
    (({ status := .SUCCESS } : AndroidAgent).status = .SUCCESS ∨
     ({ status := .SUCCESS } : AndroidAgent).status = .FAILED) ∧
    AndroidAgent.start { status := .SUCCESS } [successStepEnv] =
      ({ status := .SUCCESS } : AndroidAgent) :=
  ⟨Or.inl rfl, claim_C8.2 { status := .SUCCESS } [successStepEnv] (Or.inl rfl)⟩

/-- Claim C9 (confirmed): executing any `Swipe` action through
`_take_action` reads the undefined attributes `start_coordinate` and
`end_coordinate`; the `AttributeError` is caught by the surrounding
handler, which reports failure — the call returns `false` and no swipe
(indeed no device interaction at all) is performed. -/
theorem claim_C9 (ag : AndroidAgent) (a : AndroidAction) (env : TakeActionEnv)
    (h : a.action = .SWIPE) :
    (ag.take_action a env).1 = false ∧
    (ag.take_action a env).2.2.any Effect.isDeviceSwipe = false := by
  obtain ⟨h1, h2⟩ := take_action_swipe ag a env h
  exact ⟨h1, by rw [h2]; rfl⟩

/-- Witness for C9: a concrete swipe action carrying its points in the
`swipe` field reports failure and produces no device swipe. -/
theorem claim_C9_witness :
    sampleSwipeAction.action = .SWIPE ∧
    ((AndroidAgent.initial.take_action sampleSwipeAction {}).1 = false ∧
     (AndroidAgent.initial.take_action sampleSwipeAction {}).2.2.any
       Effect.isDeviceSwipe = false) :=
  ⟨rfl, claim_C9 AndroidAgent.initial sampleSwipeAction {} rfl⟩

/-- Claim C10 (confirmed): every action the response interpreter
produces has `package = none` (the launch branches store the app name in
`text`), so whenever the interpreter produces a `LaunchApp` action, the
executor's `package` check fails the call — it returns `false` and no
launch reaches the device. -/
theorem claim_C10 (s : String) (ag : AndroidAgent) (env : TakeActionEnv)
    (h : (parse_action_response s).action = .LAUNCH_APP) :
    (parse_action_response s).package = none ∧
    (ag.take_action (parse_action_response s) env).1 = false ∧
    (ag.take_action (parse_action_response s) env).2.2.any Effect.isDeviceLaunch = false := by
  have hp := parse_package_none s
  obtain ⟨h1, h2⟩ := take_action_launch_no_package ag _ env h hp
  exact ⟨hp, h1, by rw [h2]; rfl⟩

/-- Witness for C10: a structured launch payload parses to a `LaunchApp`
action, whose execution reports failure with no launch effect. -/
theorem claim_C10_witness :
    (parse_action_response launchPayload).action = .LAUNCH_APP ∧
    ((parse_action_response launchPayload).package = none ∧
     (AndroidAgent.initial.take_action (parse_action_response launchPayload) {}).1 = false ∧
     (AndroidAgent.initial.take_action (parse_action_response launchPayload) {}).2.2.any
       Effect.isDeviceLaunch = false) :=
  ⟨by rfl, claim_C10 launchPayload AndroidAgent.initial {} (by rfl)⟩

end AndroidAgentModel
